import Mathlib

/-!
Shallow embedding of the webrender render-task-graph construction layer:
the surface builder (src/webrender/src/surface.rs, namespace `WRS`) and the
picture preparation logic (src/webrender/src/picture.rs, namespace `WRP`).

Modelling conventions: `f32` values are rationals; machine integers are
`Int`/`Nat` (the modelled quantities are indices and small geometry values,
far from overflow); code that panics (`unwrap`, `expect`, `assert!`,
`unreachable!`) is embedded as an `Option`-returning function where `none`
is the fatal outcome.  Collaborator types that live in repository files not
present under src/ (batch.rs, render_task.rs, frame_builder.rs, ...) are
modelled from the spec and marked as such on their doc comments.
-/

set_option autoImplicit false

/-- Truncation toward zero: Rust float-to-integer cast (`as i32`). -/
def truncQ (q : ℚ) : ℤ := if 0 ≤ q then ⌊q⌋ else ⌈q⌉

/-- Rust `f32::round` (round half away from zero). -/
def roundQ (q : ℚ) : ℚ := if 0 ≤ q then ((⌊q + 1/2⌋ : ℤ) : ℚ) else -((⌊-q + 1/2⌋ : ℤ) : ℚ)

/-- Vec indexing (`v[i]` / `get_task`), `none` when out of range. -/
def listNth {α : Type} : List α → ℕ → Option α
  | [], _ => none
  | a :: _, 0 => some a
  | _ :: l, n+1 => listNth l n

/-- Update of one slot of a Vec; out-of-range leaves the list unchanged
(unreachable at the use sites, which index existing tasks). -/
def setNth {α : Type} : List α → ℕ → α → List α
  | [], _, _ => []
  | _ :: l, 0, b => b :: l
  | a :: l, n+1, b => a :: setNth l n b

namespace WRS

/-- A point with f32 coordinates (`DevicePoint` and friends). -/
structure QPoint where
  x : ℚ
  y : ℚ
deriving DecidableEq

/-- `PictureRect` of the surface.rs era: a euclid `Box2D` given by min/max corners. -/
structure PictureRect where
  rmin : QPoint
  rmax : QPoint
deriving DecidableEq

/-- euclid `Box2D::intersects`: strict overlap on both axes. -/
def PictureRect.intersects (a b : PictureRect) : Bool :=
  decide (a.rmin.x < b.rmax.x) && decide (b.rmin.x < a.rmax.x) &&
  decide (a.rmin.y < b.rmax.y) && decide (b.rmin.y < a.rmax.y)

/-- Integer tile coordinate (`TileOffset`). -/
structure TileOffset where
  x : ℤ
  y : ℤ
deriving DecidableEq

/-- `TileKey`: tile coordinate plus sub-slice index. -/
structure TileKey where
  tile_offset : TileOffset
  sub_slice_index : ℕ
deriving DecidableEq

/-- Integer rectangle of tile coordinates (`TileRect`, a `Box2D` of tile offsets). -/
structure TileRect where
  rmin : TileOffset
  rmax : TileOffset
deriving DecidableEq

/-- Render-task ids are indices into the graph builder's task Vec. -/
abbrev RenderTaskId := ℕ

abbrev CommandBufferIndex := ℕ

/-- Modelled from the spec: render_target.rs is not under src/. A resolve
instruction `{source task, destination origin, destination task}` driving a
post-render copy (spec section 4.2, pop_surface rewiring). -/
structure ResolveOp where
  src_task_id : RenderTaskId
  dest_origin : QPoint
  dest_task_id : RenderTaskId
deriving DecidableEq

/-- Modelled from the spec: render_task.rs is not under src/. The graph's
`Picture` task payload carries `surface_spatial_node_index`,
`raster_spatial_node_index`, `content_origin`, `cmd_buffer_index` and an
optional `resolve_op` (spec section 6, Graph interface). -/
structure PictureTask where
  cmd_buffer_index : CommandBufferIndex
  surface_spatial_node_index : ℕ
  raster_spatial_node_index : ℕ
  content_origin : QPoint
  resolve_op : Option ResolveOp
deriving DecidableEq

/-- Modelled from the spec: `duplicate` copies the in-flight picture task
into a new command-buffer slot ("same draw location, fresh/empty command
list"), so the duplicate starts with no resolve op of its own. -/
def PictureTask.duplicate (t : PictureTask) (cbi : CommandBufferIndex) : PictureTask :=
  { t with cmd_buffer_index := cbi, resolve_op := none }

/-- Integer size of a task target. -/
structure ISize where
  w : ℤ
  h : ℤ
deriving DecidableEq

/-- Modelled from the spec: render_task.rs is not under src/. Task locations
as used by surface.rs: a dynamically allocated target, or `Existing`
(draw into the same location as a parent task). -/
inductive RenderTaskLocation where
  | Dynamic (size : ISize)
  | Existing (parent_task_id : RenderTaskId) (size : ISize)
deriving DecidableEq

def RenderTaskLocation.size : RenderTaskLocation → ISize
  | .Dynamic s => s
  | .Existing _ s => s

/-- Modelled from the spec: the task `kind` tagged union, reduced to the
`Picture` variant surface.rs inspects plus an opaque rest. -/
inductive RenderTaskKind where
  | Picture (info : PictureTask)
  | Other
deriving DecidableEq

/-- Modelled from the spec: a graph task with a mutable location and kind. -/
structure RenderTask where
  location : RenderTaskLocation
  kind : RenderTaskKind
deriving DecidableEq

/-- Modelled from the spec: render_task_graph.rs is not under src/. The graph
builder holds the task Vec (ids are indices) and the directed dependency
edges `(parent, child)` meaning parent waits on child (spec section 6). -/
structure RenderTaskGraphBuilder where
  tasks : List RenderTask
  deps : List (RenderTaskId × RenderTaskId)
deriving DecidableEq

def RenderTaskGraphBuilder.getTask (rg : RenderTaskGraphBuilder) (id : RenderTaskId) :
    Option RenderTask :=
  listNth rg.tasks id

def RenderTaskGraphBuilder.setTask (rg : RenderTaskGraphBuilder) (id : RenderTaskId)
    (t : RenderTask) : RenderTaskGraphBuilder :=
  { rg with tasks := setNth rg.tasks id t }

def RenderTaskGraphBuilder.addDependency (rg : RenderTaskGraphBuilder)
    (parent child : RenderTaskId) : RenderTaskGraphBuilder :=
  { rg with deps := rg.deps ++ [(parent, child)] }

def RenderTaskGraphBuilder.addTask (rg : RenderTaskGraphBuilder) (t : RenderTask) :
    RenderTaskId × RenderTaskGraphBuilder :=
  (rg.tasks.length, { rg with tasks := rg.tasks ++ [t] })

/-- Modelled from the spec: batch.rs is not under src/. The kind of a command
buffer builder, mirroring the surface descriptor's shape; tiles are the
hash map entries as an association list with distinct keys. -/
inductive CommandBufferBuilderKind where
  | Tiled (tiles : List (TileKey × RenderTaskId))
  | Simple (render_task_id : RenderTaskId) (root_task_id : Option RenderTaskId)
  | Invalid
deriving DecidableEq

/-- Modelled from the spec: batch.rs is not under src/. A surface-scope record
carrying its kind, whether it establishes a sub-graph, and the optionally
recorded resolve source (spec section 3, Surface Builder State). -/
structure CommandBufferBuilder where
  kind : CommandBufferBuilderKind
  establishes_sub_graph : Bool
  resolve_source : Option RenderTaskId
deriving DecidableEq

/-- Modelled from the spec: constructor for a tiled scope record. -/
def CommandBufferBuilder.new_tiled (tiles : List (TileKey × RenderTaskId)) :
    CommandBufferBuilder :=
  { kind := .Tiled tiles, establishes_sub_graph := false, resolve_source := none }

/-- Modelled from the spec: constructor for a simple scope record (also used
for chained descriptors, which carry the chain root task). -/
def CommandBufferBuilder.new_simple (render_task_id : RenderTaskId) (is_sub_graph : Bool)
    (root_task_id : Option RenderTaskId) : CommandBufferBuilder :=
  { kind := .Simple render_task_id root_task_id,
    establishes_sub_graph := is_sub_graph, resolve_source := none }

/-- Modelled from the spec: the empty/invalid scope record used when the
stack is exhausted. -/
def CommandBufferBuilder.empty : CommandBufferBuilder :=
  { kind := .Invalid, establishes_sub_graph := false, resolve_source := none }

/-- The materialized command-buffer targets for the current scope. -/
inductive CommandBufferTargets where
  | Tiled (tiles : List (TileKey × CommandBufferIndex))
  | Simple (cmd_buffer_index : CommandBufferIndex)
deriving DecidableEq

/-- A primitive reference recorded in a command buffer. -/
structure CmdPrim where
  prim_instance_index : ℕ
  spatial_node_index : ℕ
  gpu_address : Option ℕ
deriving DecidableEq

/-- Modelled from the spec: the command buffer list; `create_cmd_buffer`
appends a fresh empty buffer and returns its index. -/
abbrev CommandBufferList := List (List CmdPrim)

def createCmdBuffer (cb : CommandBufferList) : CommandBufferIndex × CommandBufferList :=
  (cb.length, cb ++ [[]])

/-- `cmd_buffers.get_mut(i).add_prim(..)`: `none` if the index is invalid. -/
def addPrimTo (cb : CommandBufferList) (i : CommandBufferIndex) (p : CmdPrim) :
    Option CommandBufferList :=
  match listNth cb i with
  | none => none
  | some buf => some (setNth cb i (buf ++ [p]))

/-- Association-list lookup for tile maps. -/
def lookupTile {α : Type} (tiles : List (TileKey × α)) (k : TileKey) : Option α :=
  match tiles.find? (fun p => decide (p.1 = k)) with
  | none => none
  | some p => some p.2

/-- Per-tile half of `CommandBufferTargets::init`: every tile task must be a
`Picture` task, whose `cmd_buffer_index` is collected. -/
def tileTargets (rg : RenderTaskGraphBuilder) :
    List (TileKey × RenderTaskId) → Option (List (TileKey × CommandBufferIndex))
  | [] => some []
  | (k, tid) :: rest =>
    match rg.getTask tid with
    | none => none
    | some t =>
      match t.kind with
      | .Picture info =>
        match tileTargets rg rest with
        | none => none
        | some tl => some ((k, info.cmd_buffer_index) :: tl)
      | .Other => none

/-- `CommandBufferTargets::init`: rebuild the live targets from a scope
record, resolving task ids to command-buffer indices through the graph. -/
def targetsInit (b : CommandBufferBuilder) (rg : RenderTaskGraphBuilder) :
    Option CommandBufferTargets :=
  match b.kind with
  | .Tiled tiles =>
    match tileTargets rg tiles with
    | none => none
    | some tl => some (.Tiled tl)
  | .Simple rtid _ =>
    match rg.getTask rtid with
    | none => none
    | some t =>
      match t.kind with
      | .Picture info => some (.Simple info.cmd_buffer_index)
      | .Other => none
  | .Invalid => some (.Tiled [])

/-- `SurfaceDescriptorKind` from surface.rs. -/
inductive SurfaceDescriptorKind where
  | Tiled (tiles : List (TileKey × RenderTaskId))
  | Simple (render_task_id : RenderTaskId)
  | Chained (render_task_id : RenderTaskId) (root_task_id : RenderTaskId)

/-- `SurfaceDescriptor` from surface.rs. -/
structure SurfaceDescriptor where
  kind : SurfaceDescriptorKind
  dirty_rects : List PictureRect

def SurfaceDescriptor.new_tiled (tiles : List (TileKey × RenderTaskId))
    (dirty_rects : List PictureRect) : SurfaceDescriptor :=
  { kind := .Tiled tiles, dirty_rects := dirty_rects }

def SurfaceDescriptor.new_chained (render_task_id root_task_id : RenderTaskId)
    (dirty_rect : PictureRect) : SurfaceDescriptor :=
  { kind := .Chained render_task_id root_task_id, dirty_rects := [dirty_rect] }

def SurfaceDescriptor.new_simple (render_task_id : RenderTaskId)
    (dirty_rect : PictureRect) : SurfaceDescriptor :=
  { kind := .Simple render_task_id, dirty_rects := [dirty_rect] }

/-- Modelled from the spec: picture.rs of this era (SurfaceInfo) is not under
src/; the only field surface.rs touches is the clipping rect. -/
structure SurfaceInfo where
  clipping_rect : PictureRect
deriving DecidableEq

/-- Modelled from the spec: spatial mapping (spec section 6) projects a point
from one named coordinate space to another, yielding `none` on projection
failure.  Bundles `SpaceMapper::new_with_target` + `map_point`. -/
structure SpatialTree where
  mapPoint : ℕ → ℕ → QPoint → Option QPoint

/-- Modelled from the spec: visibility.rs is not under src/. The visibility
state of a primitive, computed upstream. -/
inductive VisibilityState where
  | Unset
  | Culled
  | Visible (tile_rect : TileRect) (sub_slice_index : ℕ)
  | PassThrough

/-- Modelled from the spec: the clip-chain instance fields surface.rs reads. -/
structure ClipChainInstance where
  pic_coverage_rect : PictureRect

/-- Modelled from the spec: visibility.rs is not under src/. -/
structure PrimitiveVisibility where
  state : VisibilityState
  clip_chain : ClipChainInstance

/-- `SurfaceBuilder` from surface.rs.  The head of each stack list is the
top of the corresponding Vec stack. -/
structure SurfaceBuilder where
  current_cmd_buffers : CommandBufferTargets
  builder_stack : List CommandBufferBuilder
  dirty_rect_stack : List (List PictureRect)
deriving DecidableEq

def SurfaceBuilder.new : SurfaceBuilder :=
  { current_cmd_buffers := .Tiled [], builder_stack := [], dirty_rect_stack := [] }

/-- The stack walk of `register_resolve_source`: find the nearest scope (from
the top) flagged `establishes_sub_graph`, record the id there; `none` if no
such scope exists or one is found with a resolve source already recorded. -/
def setResolveSource (id : RenderTaskId) :
    List CommandBufferBuilder → Option (List CommandBufferBuilder)
  | [] => none
  | b :: rest =>
    if b.establishes_sub_graph then
      match b.resolve_source with
      | none => some ({ b with resolve_source := some id } :: rest)
      | some _ => none
    else
      match setResolveSource id rest with
      | none => none
      | some rest2 => some (b :: rest2)

/-- `SurfaceBuilder::register_resolve_source`. -/
def registerResolveSource (sb : SurfaceBuilder) : Option SurfaceBuilder :=
  match sb.builder_stack with
  | [] => none
  | top :: _ =>
    match top.kind with
    | .Tiled _ => none
    | .Invalid => none
    | .Simple rtid _ =>
      match setResolveSource rtid sb.builder_stack with
      | none => none
      | some st => some { sb with builder_stack := st }

/-- `SurfaceBuilder::push_surface`. -/
def pushSurface (sb : SurfaceBuilder) (surface_index : ℕ) (is_sub_graph : Bool)
    (clipping_rect : PictureRect) (descriptor : SurfaceDescriptor)
    (surfaces : List SurfaceInfo) (rg : RenderTaskGraphBuilder) :
    Option (SurfaceBuilder × List SurfaceInfo) :=
  match listNth surfaces surface_index with
  | none => none
  | some _ =>
    let surfaces2 := setNth surfaces surface_index { clipping_rect := clipping_rect }
    let builder :=
      match descriptor.kind with
      | .Tiled tiles => CommandBufferBuilder.new_tiled tiles
      | .Simple rtid => CommandBufferBuilder.new_simple rtid is_sub_graph none
      | .Chained rtid root => CommandBufferBuilder.new_simple rtid is_sub_graph (some root)
    match targetsInit builder rg with
    | none => none
    | some t =>
      some ({ current_cmd_buffers := t,
              builder_stack := builder :: sb.builder_stack,
              dirty_rect_stack := descriptor.dirty_rects :: sb.dirty_rect_stack },
            surfaces2)

/-- `SurfaceBuilder::add_child_render_task`. -/
def addChildRenderTask (sb : SurfaceBuilder) (child_task_id : RenderTaskId)
    (rg : RenderTaskGraphBuilder) : Option RenderTaskGraphBuilder :=
  match sb.builder_stack with
  | [] => none
  | top :: _ =>
    match top.kind with
    | .Tiled tiles =>
      some (tiles.foldl (fun g p => g.addDependency p.2 child_task_id) rg)
    | .Simple rtid _ => some (rg.addDependency rtid child_task_id)
    | .Invalid => none

/-- `SurfaceBuilder::is_prim_visible_and_in_dirty_region`. -/
def isPrimVisibleAndInDirtyRegion (sb : SurfaceBuilder) (vis : PrimitiveVisibility) :
    Option Bool :=
  match vis.state with
  | .Unset => none
  | .Culled => some false
  | .Visible _ _ =>
    match sb.dirty_rect_stack with
    | [] => none
    | dl :: _ =>
      some (dl.any (fun dirty_rect => dirty_rect.intersects vis.clip_chain.pic_coverage_rect))
  | .PassThrough => some true

/-- The tile fan-out loop of `CommandBufferTargets::push_prim`, over the
row-major coordinate list of the tile rect. -/
def pushPrimTiles (tiles : List (TileKey × CommandBufferIndex)) (p : CmdPrim)
    (sub_slice_index : ℕ) : List (ℤ × ℤ) → CommandBufferList → Option CommandBufferList
  | [], cb => some cb
  | (x, y) :: rest, cb =>
    let key : TileKey := { tile_offset := { x := x, y := y }, sub_slice_index := sub_slice_index }
    match lookupTile tiles key with
    | none => pushPrimTiles tiles p sub_slice_index rest cb
    | some cbi =>
      match addPrimTo cb cbi p with
      | none => none
      | some cb2 => pushPrimTiles tiles p sub_slice_index rest cb2

/-- Integer half-open range `[lo, hi)` as a list, for the tile loops. -/
def intRange (lo hi : ℤ) : List ℤ :=
  (List.range (hi - lo).toNat).map (fun i => lo + (i : ℤ))

/-- Row-major `(x, y)` coordinates of a tile rect, matching the nested
`for y .. for x ..` loops. -/
def tileCoords (tr : TileRect) : List (ℤ × ℤ) :=
  (intRange tr.rmin.y tr.rmax.y).flatMap
    (fun y => (intRange tr.rmin.x tr.rmax.x).map (fun x => (x, y)))

/-- `CommandBufferTargets::push_prim`. -/
def targetsPushPrim (t : CommandBufferTargets) (p : CmdPrim) (tile_rect : TileRect)
    (sub_slice_index : ℕ) (cb : CommandBufferList) : Option CommandBufferList :=
  match t with
  | .Tiled tiles => pushPrimTiles tiles p sub_slice_index (tileCoords tile_rect) cb
  | .Simple cbi => addPrimTo cb cbi p

/-- `SurfaceBuilder::push_prim`. -/
def pushPrim (sb : SurfaceBuilder) (prim_instance_index spatial_node_index : ℕ)
    (vis : PrimitiveVisibility) (gpu_address : Option ℕ) (cb : CommandBufferList) :
    Option (SurfaceBuilder × CommandBufferList) :=
  match vis.state with
  | .Unset => none
  | .Visible tile_rect sub_slice_index =>
    let p : CmdPrim := { prim_instance_index := prim_instance_index,
                         spatial_node_index := spatial_node_index,
                         gpu_address := gpu_address }
    match targetsPushPrim sb.current_cmd_buffers p tile_rect sub_slice_index cb with
    | none => none
    | some cb2 => some (sb, cb2)
  | .PassThrough => some (sb, cb)
  | .Culled => some (sb, cb)

/-- The per-tile loop of the sub-graph rewiring in `pop_surface`: for each
parent tile task, set its resolve op, make it a dependency of the resolve
target, create a replacement task at the same location that depends on the
sub-graph output, and record the replacement id under the tile key. -/
def rewireTiles (resolveId : RenderTaskId) (destOrigin : QPoint) (childOut : RenderTaskId) :
    RenderTaskGraphBuilder → CommandBufferList → List (TileKey × RenderTaskId) →
    Option (RenderTaskGraphBuilder × CommandBufferList × List (TileKey × RenderTaskId))
  | rg, cb, [] => some (rg, cb, [])
  | rg, cb, (key, parentId) :: rest =>
    match rg.getTask parentId with
    | none => none
    | some parentTask =>
      let location := parentTask.location
      match parentTask.kind with
      | .Other => none
      | .Picture picTask =>
        let (cbi, cb1) := createCmdBuffer cb
        let newPicTask := picTask.duplicate cbi
        let newOp : ResolveOp :=
          { src_task_id := parentId, dest_origin := destOrigin, dest_task_id := resolveId }
        let rg1 := rg.setTask parentId
          { parentTask with kind := .Picture { picTask with resolve_op := some newOp } }
        let rg2 := rg1.addDependency resolveId parentId
        let (newId, rg3) := rg2.addTask { location := location, kind := .Picture newPicTask }
        let rg4 := rg3.addDependency newId childOut
        match rewireTiles resolveId destOrigin childOut rg4 cb1 rest with
        | none => none
        | some (rg5, cb5, tiles5) => some (rg5, cb5, (key, newId) :: tiles5)

/-- The body of `pop_surface` between the stack pops and the final
`current_cmd_buffers` rebuild; returns the updated remaining stack, graph
and command-buffer list. -/
def popCore (builder : CommandBufferBuilder) (stackRest : List CommandBufferBuilder)
    (rg : RenderTaskGraphBuilder) (cb : CommandBufferList) (st : SpatialTree) :
    Option (List CommandBufferBuilder × RenderTaskGraphBuilder × CommandBufferList) :=
  if builder.establishes_sub_graph then
    match builder.kind with
    | .Tiled _ => none
    | .Invalid => none
    | .Simple childId childRoot =>
      match builder.resolve_source with
      | none => none
      | some resolveId =>
        match rg.getTask resolveId with
        | none => none
        | some destTask =>
          match destTask.kind with
          | .Other => none
          | .Picture destInfo =>
            match st.mapPoint destInfo.surface_spatial_node_index
                destInfo.raster_spatial_node_index destInfo.content_origin with
            | none => none
            | some destOrigin =>
              let childOut := childRoot.getD childId
              match stackRest with
              | [] => none
              | parent :: rest2 =>
                match parent.kind with
                | .Invalid => none
                | .Tiled tiles =>
                  match rewireTiles resolveId destOrigin childOut rg cb tiles with
                  | none => none
                  | some (rg5, cb5, tiles5) =>
                    some ({ parent with kind := .Tiled tiles5 } :: rest2, rg5, cb5)
                | .Simple parentId parentRoot =>
                  match rg.getTask parentId with
                  | none => none
                  | some parentTask =>
                    let location := RenderTaskLocation.Existing parentId parentTask.location.size
                    match parentTask.kind with
                    | .Other => none
                    | .Picture picTask =>
                      let (cbi, cb1) := createCmdBuffer cb
                      let newPicTask := picTask.duplicate cbi
                      let newOp : ResolveOp :=
                        { src_task_id := parentId, dest_origin := destOrigin,
                          dest_task_id := resolveId }
                      let rg1 := rg.setTask parentId
                        { parentTask with kind := .Picture { picTask with resolve_op := some newOp } }
                      let rg2 := rg1.addDependency resolveId parentId
                      let (newId, rg3) := rg2.addTask
                        { location := location, kind := .Picture newPicTask }
                      let rg4 := rg3.addDependency newId childOut
                      some ({ parent with kind := .Simple newId parentRoot } :: rest2, rg4, cb1)
  else
    match builder.kind with
    | .Invalid => none
    | .Tiled _ => some (stackRest, rg, cb)
    | .Simple childId childRoot =>
      let childOut := childRoot.getD childId
      match stackRest with
      | [] => none
      | parent :: _ =>
        match parent.kind with
        | .Invalid => none
        | .Tiled tiles =>
          some (stackRest, tiles.foldl (fun g p => g.addDependency p.2 childOut) rg, cb)
        | .Simple parentId _ => some (stackRest, rg.addDependency parentId childOut, cb)

/-- `SurfaceBuilder::pop_surface`. -/
def popSurface (sb : SurfaceBuilder) (rg : RenderTaskGraphBuilder)
    (cb : CommandBufferList) (st : SpatialTree) :
    Option (SurfaceBuilder × RenderTaskGraphBuilder × CommandBufferList) :=
  match sb.dirty_rect_stack with
  | [] => none
  | _ :: dirtyRest =>
    match sb.builder_stack with
    | [] => none
    | builder :: stackRest =>
      match popCore builder stackRest rg cb st with
      | none => none
      | some (stackRest2, rg2, cb2) =>
        match targetsInit (stackRest2.headD CommandBufferBuilder.empty) rg2 with
        | none => none
        | some t =>
          some ({ current_cmd_buffers := t, builder_stack := stackRest2,
                  dirty_rect_stack := dirtyRest }, rg2, cb2)

/-- `SurfaceBuilder::finalize`: fatal unless the scope stack is empty. -/
def finalize (sb : SurfaceBuilder) : Option Unit :=
  if sb.builder_stack.isEmpty then some () else none

/-- The world state threaded through a traversal: the builder plus the
external collaborators it mutates. -/
structure World where
  sb : SurfaceBuilder
  rg : RenderTaskGraphBuilder
  cb : CommandBufferList
  surfaces : List SurfaceInfo
  st : SpatialTree

/-- A surface-builder call, for reasoning about push/pop traces. -/
inductive SurfaceOp where
  | push (surface_index : ℕ) (is_sub_graph : Bool) (clipping_rect : PictureRect)
      (descriptor : SurfaceDescriptor)
  | pop

def stepOp (w : World) : SurfaceOp → Option World
  | .push i sg cr d =>
    match pushSurface w.sb i sg cr d w.surfaces w.rg with
    | none => none
    | some (sb2, sf2) => some { w with sb := sb2, surfaces := sf2 }
  | .pop =>
    match popSurface w.sb w.rg w.cb w.st with
    | none => none
    | some (sb2, rg2, cb2) => some { w with sb := sb2, rg := rg2, cb := cb2 }

def runOps (w : World) : List SurfaceOp → Option World
  | [] => some w
  | op :: rest =>
    match stepOp w op with
    | none => none
    | some w2 => runOps w2 rest

def countPush : List SurfaceOp → ℕ
  | [] => 0
  | .push _ _ _ _ :: rest => countPush rest + 1
  | .pop :: rest => countPush rest

def countPop : List SurfaceOp → ℕ
  | [] => 0
  | .push _ _ _ _ :: rest => countPop rest
  | .pop :: rest => countPop rest + 1

/-- A world whose builder is freshly constructed (`SurfaceBuilder::new`). -/
def initWorld (rg : RenderTaskGraphBuilder) (cb : CommandBufferList)
    (surfaces : List SurfaceInfo) (st : SpatialTree) : World :=
  { sb := SurfaceBuilder.new, rg := rg, cb := cb, surfaces := surfaces, st := st }

/-- The dependency edges appended by the sub-graph rewiring, two per parent
target: resolve-target-on-parent and new-task-on-sub-graph-output; `base` is
the id of the first replacement task. -/
def rewireDeps (resolveId childOut : RenderTaskId) :
    ℕ → List RenderTaskId → List (RenderTaskId × RenderTaskId)
  | _, [] => []
  | base, pid :: rest =>
    (resolveId, pid) :: (base, childOut) :: rewireDeps resolveId childOut (base + 1) rest

/-- The tile map after the sub-graph rewiring: same keys, 1:1 replaced by the
freshly created task ids starting at `base`. -/
def rewiredKeys : ℕ → List (TileKey × RenderTaskId) → List (TileKey × RenderTaskId)
  | _, [] => []
  | base, (k, _) :: rest => (k, base) :: rewiredKeys (base + 1) rest

end WRS

namespace WRP

/-- Rect in origin/size form (euclid `TypedRect` over f32), used by the
picture.rs era types (`LayoutRect`, `DeviceRect`, ...). -/
structure QRect where
  x : ℚ
  y : ℚ
  w : ℚ
  h : ℚ
deriving DecidableEq

def QRect.zero : QRect := { x := 0, y := 0, w := 0, h := 0 }

/-- euclid `TypedRect::inflate`: grow by the given margins on every side. -/
def QRect.inflate (r : QRect) (dw dh : ℚ) : QRect :=
  { x := r.x - dw, y := r.y - dh, w := r.w + 2 * dw, h := r.h + 2 * dh }

/-- euclid `TypedRect::translate`. -/
def QRect.translate (r : QRect) (off : ℚ × ℚ) : QRect :=
  { r with x := r.x + off.1, y := r.y + off.2 }

/-- Integer rect (`DeviceIntRect`, `PictureIntRect`). -/
structure IntRect where
  x : ℤ
  y : ℤ
  w : ℤ
  h : ℤ
deriving DecidableEq

def IntRect.inflate (r : IntRect) (d : ℤ) : IntRect :=
  { x := r.x - d, y := r.y - d, w := r.w + 2 * d, h := r.h + 2 * d }

/-- euclid `TypedRect::intersects` (strict overlap). -/
def IntRect.intersects (a b : IntRect) : Bool :=
  decide (a.x < b.x + b.w) && decide (b.x < a.x + a.w) &&
  decide (a.y < b.y + b.h) && decide (b.y < a.y + a.h)

/-- euclid `TypedRect::intersection`: `none` when disjoint. -/
def IntRect.intersection (a b : IntRect) : Option IntRect :=
  if a.intersects b then
    let ux := max a.x b.x
    let uy := max a.y b.y
    let lx := min (a.x + a.w) (b.x + b.w)
    let ly := min (a.y + a.h) (b.y + b.h)
    some { x := ux, y := uy, w := lx - ux, h := ly - uy }
  else none

/-- Rust float-rect to int-rect cast (`to_i32`): truncate each component. -/
def QRect.toI32 (r : QRect) : IntRect :=
  { x := truncQ r.x, y := truncQ r.y, w := truncQ r.w, h := truncQ r.h }

def IntRect.toQ (r : IntRect) : QRect :=
  { x := (r.x : ℚ), y := (r.y : ℚ), w := (r.w : ℚ), h := (r.h : ℚ) }

/-- A color with f32 channels. -/
structure ColorF where
  r : ℚ
  g : ℚ
  b : ℚ
  a : ℚ
deriving DecidableEq

/-- Premultiplied color as a GPU block. -/
def ColorF.premultiplied (c : ColorF) : List ℚ :=
  [c.r * c.a, c.g * c.a, c.b * c.a, c.a]

/-- The filter operations picture.rs distinguishes; the opacity binding is an
opaque id resolved against scene properties. -/
inductive FilterOp where
  | Opacity (binding : ℕ) (value : ℚ)
  | Blur (radius : ℚ)
  | DropShadow (offset : ℚ × ℚ) (blur_radius : ℚ) (color : ColorF)
  | ColorMatrix (m : List ℚ)
deriving DecidableEq

/-- The 4x5 identity color matrix (row-major, 20 entries). -/
def identityColorMatrix : List ℚ :=
  [1, 0, 0, 0, 0, 1, 0, 0, 0, 0, 1, 0, 0, 0, 0, 1, 0, 0, 0, 0]

/-- Modelled from the spec: scene.rs (`FilterOpHelpers`) is not under src/.
A filter is a semantic no-op when its parameters collapse: zero-radius blur,
full opacity, zero-offset zero-radius drop shadow, identity color matrix. -/
def FilterOp.is_noop : FilterOp → Bool
  | .Blur radius => decide (radius = 0)
  | .Opacity _ value => decide (1 ≤ value)
  | .DropShadow offset blur_radius _ =>
    decide (offset = ((0 : ℚ), (0 : ℚ))) && decide (blur_radius = 0)
  | .ColorMatrix m => decide (m = identityColorMatrix)

/-- Modelled from the spec: an opacity filter resolved to zero produces no
visible output; every other filter stays visible. -/
def FilterOp.is_visible : FilterOp → Bool
  | .Opacity _ value => decide (0 < value)
  | _ => true

/-- `PictureCompositeMode` from picture.rs. -/
inductive PictureCompositeMode where
  | MixBlend (mode : ℕ)
  | Filter (op : FilterOp)
  | Blit
deriving DecidableEq

/-- `PictureSurface` from picture.rs: transient render task or persistent
texture-cache handle. -/
inductive PictureSurface where
  | RenderTask (id : ℕ)
  | TextureCache (handle : ℕ)
deriving DecidableEq

/-- `PictureCacheKey` from picture.rs (lines 70-115): deliberately excludes
the absolute device-space origin. -/
structure PictureCacheKey where
  scene_id : ℕ
  picture_id : ℕ
  pic_relative_render_rect : IntRect
  unclipped_size : ℤ × ℤ
deriving DecidableEq

/-- Modelled from the spec: render_task.rs is not under src/; the cache key
kind embeds the picture cache key (spec section 6). -/
inductive RenderTaskCacheKeyKind where
  | Picture (key : PictureCacheKey)
deriving DecidableEq

/-- Modelled from the spec: the render-task cache key `{size, kind}`. -/
structure RenderTaskCacheKey where
  size : ℤ × ℤ
  kind : RenderTaskCacheKeyKind
deriving DecidableEq

/-- The relative render rect of picture.rs lines 423-432: the device rect's
origin relative to the unclipped rect's (truncated) origin, with the device
rect's size. -/
def mkPicRelativeRenderRect (device_rect : IntRect) (unclipped : QRect) : IntRect :=
  { x := device_rect.x - truncQ unclipped.x,
    y := device_rect.y - truncQ unclipped.y,
    w := device_rect.w,
    h := device_rect.h }

/-- The cache key requested for a cached blur picture (picture.rs lines
436-445). -/
def mkBlurCacheKey (scene_id picture_id : ℕ) (device_rect : IntRect)
    (unclipped : QRect) : RenderTaskCacheKey :=
  { size := (device_rect.w, device_rect.h),
    kind := .Picture
      { scene_id := scene_id,
        picture_id := picture_id,
        pic_relative_render_rect := mkPicRelativeRenderRect device_rect unclipped,
        unclipped_size := (truncQ unclipped.w, truncQ unclipped.h) } }

/-- A device-space point. -/
structure DPoint where
  x : ℚ
  y : ℚ
deriving DecidableEq

inductive TransformedRectKind where
  | AxisAligned
  | Complex
deriving DecidableEq

/-- Modelled from the spec: prim_store.rs `Transform` is not under src/; the
local-to-world matrix is abstracted to its action on points (`none` when the
vertex lands behind the near clipping plane) plus its axis-alignment kind. -/
structure Transform where
  transform_point2d : DPoint → Option DPoint
  transform_kind : TransformedRectKind

/-- `UvRectKind` from gpu_types: a four-corner UV quad. -/
inductive UvRectKind where
  | Quad (top_left top_right bottom_left bottom_right : DPoint)
deriving DecidableEq

/-- `calculate_screen_uv` from picture.rs (lines 653-683).  Division by a
zero-sized rendered rect would be a float special value in the source; it is
outside every use site. -/
def calculateScreenUv (local_pos : DPoint) (transform : Transform)
    (rendered_rect : QRect) (device_pixel_scale : ℚ) : DPoint :=
  match transform.transform_point2d local_pos with
  | none => { x := 1/2, y := 1/2 }
  | some world_pos =>
    let device_pos : DPoint :=
      { x := world_pos.x * device_pixel_scale, y := world_pos.y * device_pixel_scale }
    let device_pos : DPoint :=
      if transform.transform_kind = .AxisAligned then
        { x := ((⌊device_pos.x + 1/2⌋ : ℤ) : ℚ), y := ((⌊device_pos.y + 1/2⌋ : ℤ) : ℚ) }
      else device_pos
    { x := (device_pos.x - rendered_rect.x) / rendered_rect.w,
      y := (device_pos.y - rendered_rect.y) / rendered_rect.h }

/-- `calculate_uv_rect_kind` from picture.rs (lines 687-729). -/
def calculateUvRectKind (local_rect : QRect) (transform : Transform)
    (rendered_rect : IntRect) (device_pixel_scale : ℚ) : UvRectKind :=
  let rr := rendered_rect.toQ
  .Quad
    (calculateScreenUv { x := local_rect.x, y := local_rect.y } transform rr device_pixel_scale)
    (calculateScreenUv { x := local_rect.x + local_rect.w, y := local_rect.y } transform rr device_pixel_scale)
    (calculateScreenUv { x := local_rect.x, y := local_rect.y + local_rect.h } transform rr device_pixel_scale)
    (calculateScreenUv { x := local_rect.x + local_rect.w, y := local_rect.y + local_rect.h } transform rr device_pixel_scale)

/-- Modelled from the spec: render_task.rs is not under src/. The task kinds
picture.rs constructs. -/
inductive RenderTaskKind where
  | Picture (unclipped_size : ℚ × ℚ) (prim_index : ℕ) (content_origin : ℤ × ℤ)
      (uv_rect_kind : UvRectKind)
  | Blur (blur_std_deviation : ℚ) (src_task_id : ℕ)
  | Readback (rect : IntRect)
deriving DecidableEq

/-- Modelled from the spec: a render task with a dynamically allocated target
of the given size, child dependencies, a saved-for-later flag, and a kind. -/
structure RenderTask where
  location_size : ℤ × ℤ
  children : List ℕ
  saved : Bool
  kind : RenderTaskKind
deriving DecidableEq

/-- Modelled from the spec: `RenderTask::new_picture`. -/
def RenderTask.newPicture (size : ℤ × ℤ) (unclipped_size : ℚ × ℚ) (prim_index : ℕ)
    (content_origin : ℤ × ℤ) (children : List ℕ) (uv_rect_kind : UvRectKind) : RenderTask :=
  { location_size := size, children := children, saved := false,
    kind := .Picture unclipped_size prim_index content_origin uv_rect_kind }

/-- Modelled from the spec: `RenderTask::new_blur`, a blur task consuming the
picture task. -/
def RenderTask.newBlur (blur_std_deviation : ℚ) (src_task_id : ℕ) : RenderTask :=
  { location_size := (0, 0), children := [src_task_id], saved := false,
    kind := .Blur blur_std_deviation src_task_id }

/-- Modelled from the spec: `RenderTask::new_readback` captures the current
framebuffer region. -/
def RenderTask.newReadback (rect : IntRect) : RenderTask :=
  { location_size := (rect.w, rect.h), children := [], saved := false,
    kind := .Readback rect }

/-- `mark_for_saving`: retain the target after the pass. -/
def RenderTask.markForSaving (t : RenderTask) : RenderTask := { t with saved := true }

/-- A GPU cache block: a row of four floats (or a pushed rect). -/
abbrev GpuBlock := List ℚ

/-- Modelled from the spec: gpu_cache.rs is not under src/. A slot is either
up to date (no writer handed out) or stale; writing blocks refreshes it. -/
structure GpuCache where
  up_to_date : List ℕ
  stored : List (ℕ × List GpuBlock)
deriving DecidableEq

/-- Modelled from the spec: `GpuCache::invalidate`. -/
def GpuCache.invalidate (g : GpuCache) (handle : ℕ) : GpuCache :=
  { g with up_to_date := g.up_to_date.filter (fun x => decide (x ≠ handle)) }

/-- Modelled from the spec: `GpuCache::request` returning a writer only when
the slot is stale, followed by the pushes performed through the writer. -/
def GpuCache.writeIfStale (g : GpuCache) (handle : ℕ) (blocks : List GpuBlock) : GpuCache :=
  if handle ∈ g.up_to_date then g
  else
    { up_to_date := handle :: g.up_to_date,
      stored := (handle, blocks) :: g.stored.filter (fun p => decide (p.1 ≠ handle)) }

/-- `PrimitiveRun` from prim_store: a contiguous run of primitive indices. -/
structure PrimitiveRun where
  base_prim_index : ℕ
  count : ℕ
deriving DecidableEq

/-- Modelled from the spec: frame_builder.rs `PictureState` is not under
src/; the fields picture.rs reads: accumulated child task ids, the complex
coordinate-system flag, the local-rect-changed flag and the two space
mappers (abstracted to their action on rects, `none` on failure). -/
structure PictureState where
  tasks : List ℕ
  has_non_root_coord_system : Bool
  local_rect_changed : Bool
  map_local_to_pic : QRect → Option QRect
  map_pic_to_world : QRect → Option QRect

/-- Modelled from the spec: frame_builder.rs `PictureContext`, as constructed
by `take_context`. -/
structure PictureContext where
  pipeline_id : ℕ
  prim_runs : List PrimitiveRun
  apply_local_clip_rect : Bool
  inflation_factor : ℚ
  allow_subpixel_aa : Bool
  has_surface : Bool

/-- `PicturePrimitive` from picture.rs. -/
structure PicturePrimitive where
  surface : Option PictureSurface
  runs : List PrimitiveRun
  state : Option PictureState
  pipeline_id : ℕ
  apply_local_clip_rect : Bool
  secondary_render_task_id : Option ℕ
  composite_mode : Option PictureCompositeMode
  is_in_3d_context : Bool
  frame_output_pipeline_id : Option ℕ
  extra_gpu_data_handle : ℕ
  id : ℕ

/-- Modelled from the spec: box_shadow.rs is not under src/; the blur
sampling margin scale used for all blur inflation. -/
def BLUR_SAMPLE_SCALE : ℚ := 3

/-- `PicturePrimitive::can_draw_directly_to_parent_surface`. -/
def canDrawDirectlyToParentSurface (pic : PicturePrimitive) : Bool :=
  match pic.composite_mode with
  | some (.Filter f) => f.is_noop
  | some .Blit => false
  | some (.MixBlend _) => false
  | none => true

/-- The run-list update of `PicturePrimitive::add_primitive`: extend the last
run when the new index is contiguous with it, else start a run of count 1. -/
def addRun : List PrimitiveRun → ℕ → List PrimitiveRun
  | [], i => [{ base_prim_index := i, count := 1 }]
  | [r], i =>
    if r.base_prim_index + r.count = i then [{ r with count := r.count + 1 }]
    else [r, { base_prim_index := i, count := 1 }]
  | r :: s :: rest, i => r :: addRun (s :: rest) i

/-- `PicturePrimitive::add_primitive`. -/
def PicturePrimitive.addPrimitive (pic : PicturePrimitive) (prim_index : ℕ) :
    PicturePrimitive :=
  { pic with runs := addRun pic.runs prim_index }

/-- `PicturePrimitive::restore_context`.  The `LayoutRect::from_untyped`
round-trip of the source is numerically the identity.  Returns the updated
picture and the bounding rect; `none` is the fatal assert when `local_rect`
is absent on a non-directly-drawable picture. -/
def restoreContext (pic : PicturePrimitive) (context : PictureContext)
    (state : PictureState) (local_rect : Option QRect) :
    Option (PicturePrimitive × QRect) :=
  let pic2 := { pic with runs := context.prim_runs, state := some state }
  match local_rect with
  | some lr =>
    let local_content_rect := lr
    match pic2.composite_mode with
    | some (.Filter (.Blur blur_radius)) =>
      let inflate_size : ℚ := ((⌈blur_radius * BLUR_SAMPLE_SCALE⌉ : ℤ) : ℚ)
      some (pic2, local_content_rect.inflate inflate_size inflate_size)
    | some (.Filter (.DropShadow _ blur_radius _)) =>
      let inflate_size : ℚ := ((⌈blur_radius * BLUR_SAMPLE_SCALE⌉ : ℤ) : ℚ)
      some (pic2, local_content_rect.inflate inflate_size inflate_size)
    | _ => some (pic2, local_content_rect)
  | none =>
    if canDrawDirectlyToParentSurface pic2 then some (pic2, QRect.zero) else none

/-- Modelled from the spec: util.rs is not under src/; scale a world rect to
device pixels. -/
def worldRectToDevicePixels (r : QRect) (device_pixel_scale : ℚ) : QRect :=
  { x := r.x * device_pixel_scale, y := r.y * device_pixel_scale,
    w := r.w * device_pixel_scale, h := r.h * device_pixel_scale }

/-- Modelled from the spec: the frame-building context fields picture.rs
reads. -/
structure FrameBuildingContext where
  device_pixel_scale : ℚ
  scene_id : ℕ

/-- Modelled from the spec: the frame-building state: the render-task list
(ids are indices), the render-task cache (keys in insertion order, the handle
of a key is its index) and the GPU cache. -/
structure FrameBuildingState where
  render_tasks : List RenderTask
  cached_keys : List RenderTaskCacheKey
  gpu_cache : GpuCache

/-- Modelled from the spec: the primitive metadata fields picture.rs reads. -/
structure PrimitiveMetadata where
  clipped_world_rect : Option QRect
  local_rect : QRect

/-- Modelled from the spec: the primitive context carries the resolved
transform. -/
structure PrimitiveContext where
  transform : Transform

/-- `PicturePrimitive::prepare_for_render` (picture.rs lines 319-650).
Returns the updated picture, parent picture state and frame state; `none`
is any of the source's panics (`expect`/`unwrap`). -/
def prepareForRender (pic : PicturePrimitive) (prim_index : ℕ)
    (prim_metadata : PrimitiveMetadata) (prim_context : PrimitiveContext)
    (pic_state : PictureState) (frame_context : FrameBuildingContext)
    (frame_state : FrameBuildingState) :
    Option (PicturePrimitive × PictureState × FrameBuildingState) :=
  match pic.state with
  | none => none
  | some pic_state_for_children =>
    let pic1 := { pic with state := none }
    if canDrawDirectlyToParentSurface pic1 then
      some ({ pic1 with surface := none },
            { pic_state with tasks := pic_state.tasks ++ pic_state_for_children.tasks },
            frame_state)
    else
      match prim_metadata.clipped_world_rect with
      | none => none
      | some clipped_world_rect =>
        let clipped :=
          (worldRectToDevicePixels clipped_world_rect frame_context.device_pixel_scale).toI32
        match pic_state.map_local_to_pic prim_metadata.local_rect with
        | none => none
        | some pic_rect =>
          match pic_state.map_pic_to_world pic_rect with
          | none => none
          | some world_rect =>
            let unclipped := worldRectToDevicePixels world_rect frame_context.device_pixel_scale
            match pic1.composite_mode with
            | some (.Filter (.Blur blur_radius)) =>
              let blur_std_deviation := blur_radius * frame_context.device_pixel_scale
              let blur_range : ℤ := ⌈blur_std_deviation * BLUR_SAMPLE_SCALE⌉
              match (clipped.inflate blur_range).intersection unclipped.toI32 with
              | none => none
              | some device_rect =>
                let uv_rect_kind := calculateUvRectKind prim_metadata.local_rect
                  prim_context.transform device_rect frame_context.device_pixel_scale
                if pic_state_for_children.has_non_root_coord_system then
                  let picture_task := RenderTask.newPicture (device_rect.w, device_rect.h)
                    (unclipped.w, unclipped.h) prim_index (device_rect.x, device_rect.y)
                    pic_state_for_children.tasks uv_rect_kind
                  let picture_task_id := frame_state.render_tasks.length
                  let tasks1 := frame_state.render_tasks ++ [picture_task]
                  let blur_render_task := RenderTask.newBlur blur_std_deviation picture_task_id
                  let render_task_id := tasks1.length
                  let tasks2 := tasks1 ++ [blur_render_task]
                  some ({ pic1 with surface := some (.RenderTask render_task_id) },
                        { pic_state with tasks := pic_state.tasks ++ [render_task_id] },
                        { frame_state with render_tasks := tasks2 })
                else
                  let key := mkBlurCacheKey frame_context.scene_id pic1.id device_rect unclipped
                  match frame_state.cached_keys.findIdx? (fun k => decide (k = key)) with
                  | some handle =>
                    some ({ pic1 with surface := some (.TextureCache handle) },
                          pic_state, frame_state)
                  | none =>
                    let child_tasks := pic_state_for_children.tasks
                    let picture_task := RenderTask.newPicture (device_rect.w, device_rect.h)
                      (unclipped.w, unclipped.h) prim_index (device_rect.x, device_rect.y)
                      child_tasks uv_rect_kind
                    let picture_task_id := frame_state.render_tasks.length
                    let tasks1 := frame_state.render_tasks ++ [picture_task]
                    let blur_render_task := RenderTask.newBlur blur_std_deviation picture_task_id
                    let render_task_id := tasks1.length
                    let tasks2 := tasks1 ++ [blur_render_task]
                    let handle := frame_state.cached_keys.length
                    some ({ pic1 with surface := some (.TextureCache handle) },
                          { pic_state with tasks := pic_state.tasks ++ [render_task_id] },
                          { frame_state with render_tasks := tasks2, cached_keys := frame_state.cached_keys ++ [key] })
            | some (.Filter (.DropShadow offset blur_radius color)) =>
              let blur_std_deviation := blur_radius * frame_context.device_pixel_scale
              let blur_range : ℤ := ⌈blur_std_deviation * BLUR_SAMPLE_SCALE⌉
              match (clipped.inflate blur_range).intersection unclipped.toI32 with
              | none => none
              | some device_rect =>
                let uv_rect_kind := calculateUvRectKind prim_metadata.local_rect
                  prim_context.transform device_rect frame_context.device_pixel_scale
                let picture_task := (RenderTask.newPicture (device_rect.w, device_rect.h)
                  (unclipped.w, unclipped.h) prim_index (device_rect.x, device_rect.y)
                  pic_state_for_children.tasks uv_rect_kind).markForSaving
                let picture_task_id := frame_state.render_tasks.length
                let tasks1 := frame_state.render_tasks ++ [picture_task]
                let blur_render_task := RenderTask.newBlur (roundQ blur_std_deviation)
                  picture_task_id
                let pic2 := { pic1 with secondary_render_task_id := some picture_task_id }
                let render_task_id := tasks1.length
                let tasks2 := tasks1 ++ [blur_render_task]
                let gpu0 :=
                  if pic_state.local_rect_changed then
                    frame_state.gpu_cache.invalidate pic2.extra_gpu_data_handle
                  else frame_state.gpu_cache
                let shadow_rect := prim_metadata.local_rect.translate offset
                let gpu1 := gpu0.writeIfStale pic2.extra_gpu_data_handle
                  [color.premultiplied, [1, 1, 1, 1],
                   [prim_metadata.local_rect.w, prim_metadata.local_rect.h, 0, 0],
                   [shadow_rect.x, shadow_rect.y, shadow_rect.w, shadow_rect.h],
                   [0, 0, 0, 0]]
                some ({ pic2 with surface := some (.RenderTask render_task_id) },
                      { pic_state with tasks := pic_state.tasks ++ [render_task_id] },
                      { frame_state with render_tasks := tasks2, gpu_cache := gpu1 })
            | some (.MixBlend _) =>
              let uv_rect_kind := calculateUvRectKind prim_metadata.local_rect
                prim_context.transform clipped frame_context.device_pixel_scale
              let picture_task := RenderTask.newPicture (clipped.w, clipped.h)
                (unclipped.w, unclipped.h) prim_index (clipped.x, clipped.y)
                pic_state_for_children.tasks uv_rect_kind
              let readback_task_id := frame_state.render_tasks.length
              let tasks1 := frame_state.render_tasks ++ [RenderTask.newReadback clipped]
              let pic2 := { pic1 with secondary_render_task_id := some readback_task_id }
              let render_task_id := tasks1.length
              let tasks2 := tasks1 ++ [picture_task]
              some ({ pic2 with surface := some (.RenderTask render_task_id) },
                    { pic_state with tasks :=
                        pic_state.tasks ++ [readback_task_id, render_task_id] },
                    { frame_state with render_tasks := tasks2 })
            | some (.Filter f) =>
              let gpu1 :=
                match f with
                | .ColorMatrix m =>
                  frame_state.gpu_cache.writeIfStale pic1.extra_gpu_data_handle
                    ((List.range 5).map (fun i =>
                      [m.getD (i * 4) 0, m.getD (i * 4 + 1) 0,
                       m.getD (i * 4 + 2) 0, m.getD (i * 4 + 3) 0]))
                | _ => frame_state.gpu_cache
              let uv_rect_kind := calculateUvRectKind prim_metadata.local_rect
                prim_context.transform clipped frame_context.device_pixel_scale
              let picture_task := RenderTask.newPicture (clipped.w, clipped.h)
                (unclipped.w, unclipped.h) prim_index (clipped.x, clipped.y)
                pic_state_for_children.tasks uv_rect_kind
              let render_task_id := frame_state.render_tasks.length
              let tasks2 := frame_state.render_tasks ++ [picture_task]
              some ({ pic1 with surface := some (.RenderTask render_task_id) },
                    { pic_state with tasks := pic_state.tasks ++ [render_task_id] },
                    { frame_state with render_tasks := tasks2, gpu_cache := gpu1 })
            | some .Blit | none =>
              let uv_rect_kind := calculateUvRectKind prim_metadata.local_rect
                prim_context.transform clipped frame_context.device_pixel_scale
              let picture_task := RenderTask.newPicture (clipped.w, clipped.h)
                (unclipped.w, unclipped.h) prim_index (clipped.x, clipped.y)
                pic_state_for_children.tasks uv_rect_kind
              let render_task_id := frame_state.render_tasks.length
              let tasks2 := frame_state.render_tasks ++ [picture_task]
              some ({ pic1 with surface := some (.RenderTask render_task_id) },
                    { pic_state with tasks := pic_state.tasks ++ [render_task_id] },
                    { frame_state with render_tasks := tasks2 })

end WRP

/-! Concrete sample data used by witnesses and counterexamples. -/

/-- Per-traversal child state used by the picture samples. -/
def c3ChildState : WRP.PictureState :=
  { tasks := [], has_non_root_coord_system := false, local_rect_changed := false,
    map_local_to_pic := fun r => some r, map_pic_to_world := fun r => some r }

/-- A cached-blur picture (complex coordinate systems absent). -/
def c3Pic : WRP.PicturePrimitive :=
  { surface := none, runs := [], state := some c3ChildState, pipeline_id := 0,
    apply_local_clip_rect := true, secondary_render_task_id := none,
    composite_mode := some (.Filter (.Blur 1)), is_in_3d_context := false,
    frame_output_pipeline_id := none, extra_gpu_data_handle := 0, id := 3 }

def c3Meta : WRP.PrimitiveMetadata :=
  { clipped_world_rect := some { x := 0, y := 0, w := 10, h := 10 },
    local_rect := { x := 0, y := 0, w := 10, h := 10 } }

def c3Ctx : WRP.PrimitiveContext :=
  { transform := { transform_point2d := fun p => some p, transform_kind := .AxisAligned } }

def c3FrameCtx : WRP.FrameBuildingContext := { device_pixel_scale := 1, scene_id := 7 }

/-- The cache key `prepare_for_render` computes for `c3Pic` with the sample
geometry: device rect (0,0,10,10) inside unclipped (0,0,10,10). -/
def c3Key : WRP.RenderTaskCacheKey :=
  WRP.mkBlurCacheKey 7 3 { x := 0, y := 0, w := 10, h := 10 } { x := 0, y := 0, w := 10, h := 10 }

/-- A frame state whose render-task cache already holds `c3Key` (cache hit). -/
def c3FrameState : WRP.FrameBuildingState :=
  { render_tasks := [], cached_keys := [c3Key], gpu_cache := { up_to_date := [], stored := [] } }

/-- The same picture with a `Blit` composite mode. -/
def c3BlitPic : WRP.PicturePrimitive := { c3Pic with composite_mode := some .Blit }

/-- The result of preparing the blit picture (a total value for stating the
witness; the fallback is never taken). -/
def c3BlitRes : WRP.PicturePrimitive × WRP.PictureState × WRP.FrameBuildingState :=
  (WRP.prepareForRender c3BlitPic 0 c3Meta c3Ctx c3ChildState c3FrameCtx c3FrameState).getD
    (c3BlitPic, c3ChildState, c3FrameState)

def w5Ctx : WRP.PictureContext :=
  { pipeline_id := 0, prim_runs := [], apply_local_clip_rect := true, inflation_factor := 0,
    allow_subpixel_aa := true, has_surface := true }

def w5Rect : WRP.QRect := { x := 0, y := 0, w := 4, h := 4 }

def w8Pic : WRP.PicturePrimitive := { c3Pic with runs := [{ base_prim_index := 5, count := 1 }] }

/-- A picture task payload for the surface-builder samples. -/
def w1DestInfo : WRS.PictureTask :=
  { cmd_buffer_index := 0, surface_spatial_node_index := 0, raster_spatial_node_index := 0,
    content_origin := { x := 2, y := 5 }, resolve_op := none }

def w1DestTask : WRS.RenderTask :=
  { location := .Dynamic { w := 8, h := 8 }, kind := .Picture w1DestInfo }

def w1ParentInfo : WRS.PictureTask :=
  { cmd_buffer_index := 1, surface_spatial_node_index := 0, raster_spatial_node_index := 0,
    content_origin := { x := 0, y := 0 }, resolve_op := none }

def w1ParentTask : WRS.RenderTask :=
  { location := .Dynamic { w := 16, h := 16 }, kind := .Picture w1ParentInfo }

def w1Rg : WRS.RenderTaskGraphBuilder := { tasks := [w1DestTask, w1ParentTask], deps := [] }

/-- A popped sub-graph scope (simple, resolve source registered on task 0). -/
def w1Popped : WRS.CommandBufferBuilder :=
  { kind := .Simple 2 none, establishes_sub_graph := true, resolve_source := some 0 }

/-- The enclosing simple parent scope drawing into task 1. -/
def w1Parent : WRS.CommandBufferBuilder :=
  { kind := .Simple 1 none, establishes_sub_graph := false, resolve_source := none }

def w1Sb : WRS.SurfaceBuilder :=
  { current_cmd_buffers := .Simple 0, builder_stack := [w1Popped, w1Parent],
    dirty_rect_stack := [[], []] }

def w1St : WRS.SpatialTree := { mapPoint := fun _ _ p => some p }

/-- A popped non-sub-graph simple scope over a simple parent (task 0). -/
def w2Popped : WRS.CommandBufferBuilder :=
  { kind := .Simple 1 none, establishes_sub_graph := false, resolve_source := none }

def w2Parent : WRS.CommandBufferBuilder :=
  { kind := .Simple 0 none, establishes_sub_graph := false, resolve_source := none }

def w2Rg : WRS.RenderTaskGraphBuilder := { tasks := [w1DestTask], deps := [] }

def w2Sb : WRS.SurfaceBuilder :=
  { current_cmd_buffers := .Simple 0, builder_stack := [w2Popped, w2Parent],
    dirty_rect_stack := [[], []] }

def w6Top : WRS.CommandBufferBuilder := WRS.CommandBufferBuilder.new_simple 5 false none

def w6Sub : WRS.CommandBufferBuilder := WRS.CommandBufferBuilder.new_simple 9 true none

def w6Sb : WRS.SurfaceBuilder :=
  { current_cmd_buffers := .Simple 0, builder_stack := [w6Top, w6Sub],
    dirty_rect_stack := [[], []] }

def w7Rect : WRS.PictureRect := { rmin := { x := 0, y := 0 }, rmax := { x := 10, y := 10 } }

def w7Sb : WRS.SurfaceBuilder :=
  { current_cmd_buffers := .Tiled [], builder_stack := [], dirty_rect_stack := [[w7Rect]] }

def w7Vis : WRS.PrimitiveVisibility :=
  { state := .Visible { rmin := { x := 0, y := 0 }, rmax := { x := 0, y := 0 } } 0,
    clip_chain := { pic_coverage_rect :=
      { rmin := { x := 5, y := 5 }, rmax := { x := 6, y := 6 } } } }

def w10Vis : WRS.PrimitiveVisibility :=
  { state := .Culled, clip_chain := { pic_coverage_rect := w7Rect } }

def w9W0 : WRS.World :=
  WRS.initWorld { tasks := [], deps := [] } [] [{ clipping_rect := w7Rect }] w1St

def w9Ops : List WRS.SurfaceOp :=
  [.push 0 false w7Rect (WRS.SurfaceDescriptor.new_tiled [] []), .pop]

/-- The world after the balanced push/pop trace (total value for the witness;
the fallback is never taken). -/
def w9W1 : WRS.World := (WRS.runOps w9W0 w9Ops).getD w9W0

/-! Helper lemmas about the Vec operations. -/

theorem listNth_lt_length {α : Type} :
    ∀ (l : List α) (n : ℕ) (a : α), listNth l n = some a → n < l.length
  | [], n, a => by simp [listNth]
  | b :: l, 0, a => by simp
  | b :: l, n+1, a => by
    intro h
    have := listNth_lt_length l n a h
    simpa [Nat.succ_lt_succ_iff] using this

theorem listNth_append_left {α : Type} :
    ∀ (l l2 : List α) (n : ℕ), n < l.length → listNth (l ++ l2) n = listNth l n
  | [], _, n => by intro h; simp at h
  | a :: l, l2, 0 => by intro _; rfl
  | a :: l, l2, n+1 => by
    intro h
    simpa [listNth] using listNth_append_left l l2 n (by simpa using h)

theorem listNth_append_self {α : Type} :
    ∀ (l : List α) (a : α), listNth (l ++ [a]) l.length = some a
  | [], a => rfl
  | b :: l, a => listNth_append_self l a

theorem setNth_length {α : Type} :
    ∀ (l : List α) (n : ℕ) (a : α), (setNth l n a).length = l.length
  | [], _, _ => rfl
  | b :: l, 0, a => rfl
  | b :: l, n+1, a => by simp [setNth, setNth_length l n a]

theorem listNth_setNth_self {α : Type} :
    ∀ (l : List α) (n : ℕ) (a : α), n < l.length → listNth (setNth l n a) n = some a
  | [], n, a => by intro h; simp at h
  | b :: l, 0, a => by intro _; rfl
  | b :: l, n+1, a => by
    intro h
    simpa [setNth, listNth] using listNth_setNth_self l n a (by simpa using h)

theorem listNth_setNth_ne {α : Type} :
    ∀ (l : List α) (n m : ℕ) (a : α), m ≠ n → listNth (setNth l n a) m = listNth l m
  | [], _, _, _ => by intro _; rfl
  | b :: l, 0, 0, a => by intro h; exact absurd rfl h
  | b :: l, 0, m+1, a => by intro _; rfl
  | b :: l, n+1, 0, a => by intro _; rfl
  | b :: l, n+1, m+1, a => by
    intro h
    simpa [setNth, listNth] using listNth_setNth_ne l n m a (by omega)

/-- Behavior of the run-coalescing helper on a run list with a last run. -/
theorem addRun_append (rs : List WRP.PrimitiveRun) (r : WRP.PrimitiveRun) (i : ℕ) :
    WRP.addRun (rs ++ [r]) i =
      rs ++ (if r.base_prim_index + r.count = i
             then [{ r with count := r.count + 1 }]
             else [r, { base_prim_index := i, count := 1 }]) := by
  induction rs with
  | nil =>
    by_cases h : r.base_prim_index + r.count = i <;> simp [WRP.addRun, h]
  | cons a rs ih =>
    obtain ⟨b, l, hbl⟩ := List.exists_cons_of_ne_nil (l := rs ++ [r]) (by simp)
    rw [List.cons_append, hbl]
    show a :: WRP.addRun (b :: l) i = _
    rw [← hbl, ih]
    split <;> simp

/-- Claim C8: `add_primitive` appends the given primitive index to the last
run when it is contiguous with it (`last.base + last.count == index`) and
otherwise starts a new run of count 1; applied to the indices [5,6,7,10] in
order from an empty run list it yields exactly the runs (base 5, count 3)
and (base 10, count 1). -/
theorem claim_C8_add_primitive (pic : WRP.PicturePrimitive)
    (rs : List WRP.PrimitiveRun) (r : WRP.PrimitiveRun) (i : ℕ) :
    (pic.runs = rs ++ [r] → r.base_prim_index + r.count = i →
      (pic.addPrimitive i).runs = rs ++ [{ r with count := r.count + 1 }]) ∧
    (pic.runs = rs ++ [r] → r.base_prim_index + r.count ≠ i →
      (pic.addPrimitive i).runs = rs ++ [r, { base_prim_index := i, count := 1 }]) ∧
    (pic.runs = [] → (pic.addPrimitive i).runs = [{ base_prim_index := i, count := 1 }]) ∧
    (([5, 6, 7, 10].foldl WRP.PicturePrimitive.addPrimitive { pic with runs := [] }).runs
      = [{ base_prim_index := 5, count := 3 }, { base_prim_index := 10, count := 1 }]) := by
  refine ⟨?_, ?_, ?_, ?_⟩
  · intro hruns hc
    simp [WRP.PicturePrimitive.addPrimitive, hruns, addRun_append, hc]
  · intro hruns hc
    simp [WRP.PicturePrimitive.addPrimitive, hruns, addRun_append, hc]
  · intro hruns
    simp [WRP.PicturePrimitive.addPrimitive, hruns, WRP.addRun]
  · rfl

/-- Witness for C8: appending the contiguous index 6 to a run list ending in
(base 5, count 1) extends that run. -/
theorem claim_C8_witness :
    (w8Pic.addPrimitive 6).runs = [{ base_prim_index := 5, count := 2 }] := by
  have h := (claim_C8_add_primitive w8Pic [] { base_prim_index := 5, count := 1 } 6).1
  simpa using h rfl rfl

/-- Claim C7: with a computed visibility state, the dirty-region test is
fatal on Unset, false for Culled, true for PassThrough, and for Visible true
exactly when some rect of the top dirty-rect list intersects the primitive's
picture-space coverage rect. -/
theorem claim_C7_dirty_region_visibility (sb : WRS.SurfaceBuilder)
    (vis : WRS.PrimitiveVisibility) :
    (vis.state = .Unset → WRS.isPrimVisibleAndInDirtyRegion sb vis = none) ∧
    (vis.state = .Culled → WRS.isPrimVisibleAndInDirtyRegion sb vis = some false) ∧
    (vis.state = .PassThrough → WRS.isPrimVisibleAndInDirtyRegion sb vis = some true) ∧
    (∀ tr ssi dl rest, vis.state = .Visible tr ssi → sb.dirty_rect_stack = dl :: rest →
      WRS.isPrimVisibleAndInDirtyRegion sb vis
        = some (dl.any (fun dirty_rect =>
            dirty_rect.intersects vis.clip_chain.pic_coverage_rect)) ∧
      (WRS.isPrimVisibleAndInDirtyRegion sb vis = some true ↔
        ∃ dirty_rect ∈ dl,
          dirty_rect.intersects vis.clip_chain.pic_coverage_rect = true)) := by
  refine ⟨?_, ?_, ?_, ?_⟩
  · intro h; simp [WRS.isPrimVisibleAndInDirtyRegion, h]
  · intro h; simp [WRS.isPrimVisibleAndInDirtyRegion, h]
  · intro h; simp [WRS.isPrimVisibleAndInDirtyRegion, h]
  · intro tr ssi dl rest hv hd
    constructor
    · simp [WRS.isPrimVisibleAndInDirtyRegion, hv, hd]
    · simp [WRS.isPrimVisibleAndInDirtyRegion, hv, hd, List.any_eq_true]

/-- Witness for C7: a Visible primitive whose coverage rect meets the single
dirty rect tests true. -/
theorem claim_C7_witness :
    WRS.isPrimVisibleAndInDirtyRegion w7Sb w7Vis = some true := by
  have h := ((claim_C7_dirty_region_visibility w7Sb w7Vis).2.2.2
    { rmin := { x := 0, y := 0 }, rmax := { x := 0, y := 0 } } 0 [w7Rect] [] rfl rfl).1
  rw [h]
  decide

/-- Claim C10: `push_prim` leaves the builder and every command buffer
unchanged for Culled and PassThrough primitives (even though PassThrough is
reported visible by the dirty-region test), routes only Visible primitives
into the active target, and is fatal on Unset. -/
theorem claim_C10_push_prim (sb : WRS.SurfaceBuilder) (cb : WRS.CommandBufferList)
    (prim spat : ℕ) (gpu : Option ℕ) (vis : WRS.PrimitiveVisibility) :
    (vis.state = .Culled → WRS.pushPrim sb prim spat vis gpu cb = some (sb, cb)) ∧
    (vis.state = .PassThrough →
      WRS.pushPrim sb prim spat vis gpu cb = some (sb, cb) ∧
      WRS.isPrimVisibleAndInDirtyRegion sb vis = some true) ∧
    (vis.state = .Unset → WRS.pushPrim sb prim spat vis gpu cb = none) ∧
    (∀ tr ssi, vis.state = .Visible tr ssi →
      WRS.pushPrim sb prim spat vis gpu cb =
        (WRS.targetsPushPrim sb.current_cmd_buffers
          { prim_instance_index := prim, spatial_node_index := spat, gpu_address := gpu }
          tr ssi cb).map (fun cb2 => (sb, cb2))) := by
  refine ⟨?_, ?_, ?_, ?_⟩
  · intro h; simp [WRS.pushPrim, h]
  · intro h; simp [WRS.pushPrim, WRS.isPrimVisibleAndInDirtyRegion, h]
  · intro h; simp [WRS.pushPrim, h]
  · intro tr ssi h
    simp only [WRS.pushPrim, h]
    rcases htp : WRS.targetsPushPrim sb.current_cmd_buffers
        { prim_instance_index := prim, spatial_node_index := spat, gpu_address := gpu }
        tr ssi cb with _ | cb2 <;> simp [htp]

/-- Witness for C10: a Culled primitive leaves a fresh builder and an empty
buffer list untouched. -/
theorem claim_C10_witness :
    WRS.pushPrim WRS.SurfaceBuilder.new 0 0 w10Vis none [] =
      some (WRS.SurfaceBuilder.new, []) :=
  (claim_C10_push_prim WRS.SurfaceBuilder.new [] 0 0 none w10Vis).1 rfl

/-- Claim C4: for cached-blur pictures the render-task cache key is fully
determined by scene id, picture id, the render rect relative to the
unclipped rect, the truncated unclipped size and the device-rect size (so
translating the absolute device-space origin does not change the key), and
any change of the truncated unclipped size changes the key. -/
theorem claim_C4_cache_key (s p : ℕ) (dr1 dr2 : WRP.IntRect) (u1 u2 : WRP.QRect) :
    (WRP.mkPicRelativeRenderRect dr1 u1 = WRP.mkPicRelativeRenderRect dr2 u2 →
      (truncQ u1.w, truncQ u1.h) = (truncQ u2.w, truncQ u2.h) →
      (dr1.w, dr1.h) = (dr2.w, dr2.h) →
      WRP.mkBlurCacheKey s p dr1 u1 = WRP.mkBlurCacheKey s p dr2 u2) ∧
    ((truncQ u1.w, truncQ u1.h) ≠ (truncQ u2.w, truncQ u2.h) →
      WRP.mkBlurCacheKey s p dr1 u1 ≠ WRP.mkBlurCacheKey s p dr2 u2) := by
  constructor
  · intro hrel hsz hdr
    simp only [Prod.mk.injEq] at hsz hdr
    simp [WRP.mkBlurCacheKey, hrel, hsz.1, hsz.2, hdr.1, hdr.2]
  · intro hne heq
    apply hne
    simp only [WRP.mkBlurCacheKey, WRP.RenderTaskCacheKey.mk.injEq,
      WRP.RenderTaskCacheKeyKind.Picture.injEq, WRP.PictureCacheKey.mk.injEq,
      Prod.mk.injEq] at heq
    exact Prod.ext heq.2.2.2.2.1 heq.2.2.2.2.2

/-- Witness for C4: two cached-blur configurations translated by (100, 50)
(different absolute origins, same relative rect and sizes) share the key. -/
theorem claim_C4_witness :
    WRP.mkBlurCacheKey 1 2 { x := 0, y := 0, w := 10, h := 10 }
        { x := 0, y := 0, w := 10, h := 10 } =
      WRP.mkBlurCacheKey 1 2 { x := 100, y := 50, w := 10, h := 10 }
        { x := 100, y := 50, w := 10, h := 10 } :=
  (claim_C4_cache_key 1 2 { x := 0, y := 0, w := 10, h := 10 }
    { x := 100, y := 50, w := 10, h := 10 } { x := 0, y := 0, w := 10, h := 10 }
    { x := 100, y := 50, w := 10, h := 10 }).1 (by decide) (by decide) (by decide)

/-- Claim C5: `restore_context` with a present local rect returns the content
rect inflated symmetrically by `ceil(blur_radius * BLUR_SAMPLE_SCALE)` for
Blur and DropShadow filters and unchanged for every other composite mode;
with an absent local rect it returns the zero rect when the picture is
directly drawable and is fatal otherwise. -/
theorem claim_C5_restore_context (pic : WRP.PicturePrimitive)
    (ctx : WRP.PictureContext) (st : WRP.PictureState) :
    (∀ lr r, pic.composite_mode = some (.Filter (.Blur r)) →
      WRP.restoreContext pic ctx st (some lr) =
        some ({ pic with runs := ctx.prim_runs, state := some st },
          lr.inflate ((⌈r * WRP.BLUR_SAMPLE_SCALE⌉ : ℤ) : ℚ)
            ((⌈r * WRP.BLUR_SAMPLE_SCALE⌉ : ℤ) : ℚ))) ∧
    (∀ lr off r col, pic.composite_mode = some (.Filter (.DropShadow off r col)) →
      WRP.restoreContext pic ctx st (some lr) =
        some ({ pic with runs := ctx.prim_runs, state := some st },
          lr.inflate ((⌈r * WRP.BLUR_SAMPLE_SCALE⌉ : ℤ) : ℚ)
            ((⌈r * WRP.BLUR_SAMPLE_SCALE⌉ : ℤ) : ℚ))) ∧
    (∀ lr, (∀ r, pic.composite_mode ≠ some (.Filter (.Blur r))) →
      (∀ off r col, pic.composite_mode ≠ some (.Filter (.DropShadow off r col))) →
      WRP.restoreContext pic ctx st (some lr) =
        some ({ pic with runs := ctx.prim_runs, state := some st }, lr)) ∧
    (WRP.canDrawDirectlyToParentSurface pic = true →
      WRP.restoreContext pic ctx st none =
        some ({ pic with runs := ctx.prim_runs, state := some st }, WRP.QRect.zero)) ∧
    (WRP.canDrawDirectlyToParentSurface pic = false →
      WRP.restoreContext pic ctx st none = none) := by
  refine ⟨?_, ?_, ?_, ?_, ?_⟩
  · intro lr r h
    simp [WRP.restoreContext, h]
  · intro lr off r col h
    simp [WRP.restoreContext, h]
  · intro lr hb hd
    rcases hcm : pic.composite_mode with _ | cm
    · simp [WRP.restoreContext, hcm]
    · cases cm with
      | MixBlend m => simp [WRP.restoreContext, hcm]
      | Blit => simp [WRP.restoreContext, hcm]
      | Filter f =>
        cases f with
        | Opacity b v => simp [WRP.restoreContext, hcm]
        | Blur r => exact absurd hcm (hb r)
        | DropShadow off r col => exact absurd hcm (hd off r col)
        | ColorMatrix m => simp [WRP.restoreContext, hcm]
  · intro h
    have h2 : WRP.canDrawDirectlyToParentSurface
        { pic with runs := ctx.prim_runs, state := some st } = true := h
    simp [WRP.restoreContext, h2]
  · intro h
    have h2 : WRP.canDrawDirectlyToParentSurface
        { pic with runs := ctx.prim_runs, state := some st } = false := h
    simp [WRP.restoreContext, h2]

/-- Witness for C5: a blur of radius 1 inflates the rect (0,0,4,4) by
ceil(3) = 3 on every side. -/
theorem claim_C5_witness :
    WRP.restoreContext c3Pic w5Ctx c3ChildState (some w5Rect) =
      some ({ c3Pic with runs := [], state := some c3ChildState },
        { x := -3, y := -3, w := 10, h := 10 }) := by
  have h := (claim_C5_restore_context c3Pic w5Ctx c3ChildState).1 w5Rect 1 rfl
  rw [h]
  norm_num [WRP.QRect.inflate, WRP.BLUR_SAMPLE_SCALE, w5Rect, w5Ctx]

/-- The resolve-source walk fails when no scope establishes a sub-graph. -/
theorem setResolveSource_none (id : ℕ) :
    ∀ l : List WRS.CommandBufferBuilder,
      (∀ b ∈ l, b.establishes_sub_graph = false) → WRS.setResolveSource id l = none
  | [], _ => rfl
  | b :: l, h => by
    have hb := h b (by simp)
    simp [WRS.setResolveSource, hb, setResolveSource_none id l (fun x hx => h x (by simp [hx]))]

/-- The resolve-source walk finds the nearest (from the top) sub-graph scope
and records the id there exactly when no source was recorded before. -/
theorem setResolveSource_found (id : ℕ) :
    ∀ (pre : List WRS.CommandBufferBuilder) (b : WRS.CommandBufferBuilder)
      (post : List WRS.CommandBufferBuilder),
      (∀ x ∈ pre, x.establishes_sub_graph = false) → b.establishes_sub_graph = true →
      WRS.setResolveSource id (pre ++ b :: post) =
        match b.resolve_source with
        | none => some (pre ++ { b with resolve_source := some id } :: post)
        | some _ => none
  | [], b, post, _, hb => by
    simp only [List.nil_append, WRS.setResolveSource, hb, if_true]
  | a :: pre, b, post, hpre, hb => by
    have ha := hpre a (by simp)
    have ih := setResolveSource_found id pre b post (fun x hx => hpre x (by simp [hx])) hb
    rcases hres : b.resolve_source with _ | src <;>
      rw [hres] at ih <;>
      simp [WRS.setResolveSource, ha, ih]

/-- Claim C6: `register_resolve_source` is fatal when the top scope is tiled
(or invalid); otherwise it walks the stack from the top to the nearest scope
flagged `establishes_sub_graph`, is fatal when none exists or when that scope
already has a resolve source, and otherwise records the top surface's task id
there. -/
theorem claim_C6_register_resolve_source (sb : WRS.SurfaceBuilder)
    (top : WRS.CommandBufferBuilder) (stk : List WRS.CommandBufferBuilder)
    (hstack : sb.builder_stack = top :: stk) :
    (∀ tiles, top.kind = .Tiled tiles → WRS.registerResolveSource sb = none) ∧
    (top.kind = .Invalid → WRS.registerResolveSource sb = none) ∧
    (∀ rtid root, top.kind = .Simple rtid root →
      ((∀ b ∈ sb.builder_stack, b.establishes_sub_graph = false) →
        WRS.registerResolveSource sb = none) ∧
      (∀ pre b post, sb.builder_stack = pre ++ b :: post →
        (∀ x ∈ pre, x.establishes_sub_graph = false) → b.establishes_sub_graph = true →
        (∀ src, b.resolve_source = some src → WRS.registerResolveSource sb = none) ∧
        (b.resolve_source = none →
          WRS.registerResolveSource sb =
            some { sb with builder_stack :=
              pre ++ { b with resolve_source := some rtid } :: post }))) := by
  refine ⟨?_, ?_, ?_⟩
  · intro tiles h
    simp [WRS.registerResolveSource, hstack, h]
  · intro h
    simp [WRS.registerResolveSource, hstack, h]
  · intro rtid root hk
    constructor
    · intro hall
      rw [hstack] at hall
      simp [WRS.registerResolveSource, hstack, hk,
        setResolveSource_none rtid (top :: stk) hall]
    · intro pre b post hsplit hpre hb
      have hfound := setResolveSource_found rtid pre b post hpre hb
      constructor
      · intro src hsrc
        rw [hsrc] at hfound
        have hnone : WRS.setResolveSource rtid (top :: stk) = none := by
          rw [← hstack, hsplit, hfound]
        simp [WRS.registerResolveSource, hstack, hk, hnone]
      · intro hsrc
        rw [hsrc] at hfound
        have hsome : WRS.setResolveSource rtid (top :: stk) =
            some (pre ++ { b with resolve_source := some rtid } :: post) := by
          rw [← hstack, hsplit, hfound]
        simp [WRS.registerResolveSource, hstack, hk, hsome]

/-- Witness for C6: a simple top surface (task 5) records itself on the
nearest enclosing sub-graph scope. -/
theorem claim_C6_witness :
    WRS.registerResolveSource w6Sb =
      some { w6Sb with builder_stack :=
        [w6Top, { w6Sub with resolve_source := some 5 }] } := by
  exact (((claim_C6_register_resolve_source w6Sb w6Top [w6Sub] rfl).2.2 5 none rfl).2
    [w6Top] w6Sub [] rfl (by decide) rfl).2 rfl

/-- Adding one dependency per tile by folding is appending one edge per
tile to the dependency list. -/
theorem foldl_addDependency (c : ℕ) :
    ∀ (l : List (WRS.TileKey × ℕ)) (rg : WRS.RenderTaskGraphBuilder),
      l.foldl (fun g p => g.addDependency p.2 c) rg =
        { rg with deps := rg.deps ++ l.map (fun p => (p.2, c)) }
  | [], rg => by simp
  | p :: l, rg => by
    simp only [List.foldl_cons, List.map_cons,
      foldl_addDependency c l (rg.addDependency p.2 c)]
    simp [WRS.RenderTaskGraphBuilder.addDependency]

/-- The tile-target resolution only reads the task list, not the edges. -/
theorem tileTargets_deps (rg : WRS.RenderTaskGraphBuilder) (d : List (ℕ × ℕ)) :
    ∀ l, WRS.tileTargets { rg with deps := d } l = WRS.tileTargets rg l
  | [] => rfl
  | (k, tid) :: l => by
    simp only [WRS.tileTargets, WRS.RenderTaskGraphBuilder.getTask,
      tileTargets_deps rg d l]

/-- `CommandBufferTargets::init` only reads the task list, not the edges. -/
theorem targetsInit_deps (b : WRS.CommandBufferBuilder)
    (rg : WRS.RenderTaskGraphBuilder) (d : List (ℕ × ℕ)) :
    WRS.targetsInit b { rg with deps := d } = WRS.targetsInit b rg := by
  rcases b with ⟨kind, sub, src⟩
  cases kind with
  | Tiled tiles =>
    simp [WRS.targetsInit, tileTargets_deps rg d tiles]
  | Simple rtid root =>
    simp [WRS.targetsInit, WRS.RenderTaskGraphBuilder.getTask]
  | Invalid => rfl

/-- `headD` through `head?`, matching the simp normal form. -/
theorem headD_eq_head_getD {α : Type} (l : List α) (a : α) : l.headD a = l.head?.getD a := by
  cases l <;> rfl

/-- Claim C2: popping a non-sub-graph scope whose descriptor is Simple or
Chained adds exactly one dependency edge from every target task of the new
top scope onto the popped surface's output task (its chain root when it has
one), and popping a tiled root scope adds no dependency edges. -/
theorem claim_C2_pop_non_subgraph (sb : WRS.SurfaceBuilder)
    (rg : WRS.RenderTaskGraphBuilder) (cb : WRS.CommandBufferList) (st : WRS.SpatialTree)
    (builder : WRS.CommandBufferBuilder) (restStack : List WRS.CommandBufferBuilder)
    (d0 : List WRS.PictureRect) (dr : List (List WRS.PictureRect))
    (hst : sb.builder_stack = builder :: restStack)
    (hdr : sb.dirty_rect_stack = d0 :: dr)
    (hnsub : builder.establishes_sub_graph = false) :
    (∀ tiles, builder.kind = .Tiled tiles →
      (WRS.targetsInit (restStack.headD WRS.CommandBufferBuilder.empty) rg).isSome →
      ∃ sb', WRS.popSurface sb rg cb st = some (sb', rg, cb) ∧
        sb'.builder_stack = restStack) ∧
    (∀ childId childRoot parent rest2, builder.kind = .Simple childId childRoot →
      restStack = parent :: rest2 →
      (WRS.targetsInit parent rg).isSome →
      (∀ tiles, parent.kind = .Tiled tiles →
        ∃ sb', WRS.popSurface sb rg cb st =
          some (sb', { rg with deps := rg.deps ++ tiles.map (fun p => (p.2, childRoot.getD childId)) }, cb) ∧
          sb'.builder_stack = restStack) ∧
      (∀ parentId parentRoot, parent.kind = .Simple parentId parentRoot →
        ∃ sb', WRS.popSurface sb rg cb st =
          some (sb', { rg with deps := rg.deps ++ [(parentId, childRoot.getD childId)] }, cb) ∧
          sb'.builder_stack = restStack)) := by
  refine ⟨?_, ?_⟩
  · intro tiles hk hinit
    obtain ⟨t, ht⟩ := Option.isSome_iff_exists.mp hinit
    rw [headD_eq_head_getD] at ht
    refine ⟨{ current_cmd_buffers := t, builder_stack := restStack,
              dirty_rect_stack := dr }, ?_, rfl⟩
    simp [WRS.popSurface, hdr, hst, WRS.popCore, hnsub, hk, ht]
  · intro childId childRoot parent rest2 hk hrest hinit
    obtain ⟨t, ht⟩ := Option.isSome_iff_exists.mp hinit
    constructor
    · intro tiles hpk
      have hfold := foldl_addDependency (childRoot.getD childId) tiles rg
      have ht2 : WRS.targetsInit parent
          { rg with deps := rg.deps ++ tiles.map (fun p => (p.2, childRoot.getD childId)) } = some t := by
        rw [targetsInit_deps]; exact ht
      refine ⟨{ current_cmd_buffers := t, builder_stack := restStack,
                dirty_rect_stack := dr }, ?_, rfl⟩
      simp [WRS.popSurface, hdr, hst, WRS.popCore, hnsub, hk, hrest, hpk, hfold, ht2]
    · intro parentId parentRoot hpk
      have ht2 : WRS.targetsInit parent
          { rg with deps := rg.deps ++ [(parentId, childRoot.getD childId)] } = some t := by
        rw [targetsInit_deps]; exact ht
      refine ⟨{ current_cmd_buffers := t, builder_stack := restStack,
                dirty_rect_stack := dr }, ?_, rfl⟩
      simp [WRS.popSurface, hdr, hst, WRS.popCore, hnsub, hk, hrest, hpk,
        WRS.RenderTaskGraphBuilder.addDependency, ht2]

/-- Witness for C2: popping a simple child (output task 1) over a simple
parent drawing into task 0 adds exactly the edge (0, 1). -/
theorem claim_C2_witness :
    (WRS.popSurface w2Sb w2Rg [] w1St).map (fun x => x.2.1.deps) = some [(0, 1)] := by
  obtain ⟨sb', hpop, -⟩ :=
    ((claim_C2_pop_non_subgraph w2Sb w2Rg [] w1St w2Popped [w2Parent] [] [[]]
      rfl rfl rfl).2 1 none w2Parent [] rfl rfl (by decide)).2 0 none rfl
  rw [hpop]
  rfl

/-- `push_surface` grows both stacks by exactly one. -/
theorem pushSurface_lengths (sb : WRS.SurfaceBuilder) (i : ℕ) (sg : Bool)
    (cr : WRS.PictureRect) (d : WRS.SurfaceDescriptor) (sf : List WRS.SurfaceInfo)
    (rg : WRS.RenderTaskGraphBuilder) (sb' : WRS.SurfaceBuilder) (sf' : List WRS.SurfaceInfo)
    (h : WRS.pushSurface sb i sg cr d sf rg = some (sb', sf')) :
    sb'.builder_stack.length = sb.builder_stack.length + 1 ∧
    sb'.dirty_rect_stack.length = sb.dirty_rect_stack.length + 1 := by
  simp only [WRS.pushSurface] at h
  split at h
  · simp at h
  · split at h
    · simp at h
    · split at h <;>
        (simp only [Option.some.injEq, Prod.mk.injEq] at h
         obtain ⟨h1, h2⟩ := h
         subst h1
         simp)

/-- The core of `pop_surface` preserves the length of the remaining stack. -/
theorem popCore_length (builder : WRS.CommandBufferBuilder)
    (stackRest : List WRS.CommandBufferBuilder) (rg : WRS.RenderTaskGraphBuilder)
    (cb : WRS.CommandBufferList) (st : WRS.SpatialTree)
    (s' : List WRS.CommandBufferBuilder) (rg' : WRS.RenderTaskGraphBuilder)
    (cb' : WRS.CommandBufferList)
    (h : WRS.popCore builder stackRest rg cb st = some (s', rg', cb')) :
    s'.length = stackRest.length := by
  simp only [WRS.popCore] at h
  split at h <;> repeat' split at h
  all_goals (try simp only [Option.some.injEq, Prod.mk.injEq] at h)
  all_goals (try (obtain ⟨h1, h2, h3⟩ := h; subst h1))
  all_goals simp_all

/-- `pop_surface` shrinks both stacks by exactly one. -/
theorem popSurface_lengths (sb : WRS.SurfaceBuilder) (rg : WRS.RenderTaskGraphBuilder)
    (cb : WRS.CommandBufferList) (st : WRS.SpatialTree) (sb' : WRS.SurfaceBuilder)
    (rg' : WRS.RenderTaskGraphBuilder) (cb' : WRS.CommandBufferList)
    (h : WRS.popSurface sb rg cb st = some (sb', rg', cb')) :
    sb.builder_stack.length = sb'.builder_stack.length + 1 ∧
    sb.dirty_rect_stack.length = sb'.dirty_rect_stack.length + 1 := by
  simp only [WRS.popSurface] at h
  split at h
  · simp at h
  · rename_i hdr
    split at h
    · simp at h
    · rename_i hst
      split at h
      · simp at h
      · rename_i s2 rg2 cb2 hcore
        split at h
        · simp at h
        · simp only [Option.some.injEq, Prod.mk.injEq] at h
          obtain ⟨hsb, hrg2, hcb2⟩ := h
          subst hsb
          have hlen := popCore_length _ _ _ _ _ _ _ _ hcore
          constructor
          · rw [hst]
            simp [hlen]
          · rw [hdr]
            simp

/-- Stack-length bookkeeping along a push/pop trace. -/
theorem runOps_lengths :
    ∀ (ops : List WRS.SurfaceOp) (w w' : WRS.World), WRS.runOps w ops = some w' →
      w'.sb.builder_stack.length + WRS.countPop ops =
        w.sb.builder_stack.length + WRS.countPush ops ∧
      w'.sb.dirty_rect_stack.length + WRS.countPop ops =
        w.sb.dirty_rect_stack.length + WRS.countPush ops
  | [], w, w' => by
    intro h
    simp only [WRS.runOps, Option.some.injEq] at h
    subst h
    simp [WRS.countPush, WRS.countPop]
  | op :: rest, w, w' => by
    intro h
    simp only [WRS.runOps] at h
    rcases hstep : WRS.stepOp w op with _ | w2
    · rw [hstep] at h; simp at h
    · rw [hstep] at h
      have ih := runOps_lengths rest w2 w' h
      cases op with
      | push i sg cr d =>
        simp only [WRS.stepOp] at hstep
        rcases hps : WRS.pushSurface w.sb i sg cr d w.surfaces w.rg with _ | p
        · rw [hps] at hstep; simp at hstep
        · rcases p with ⟨sb2, sf2⟩
          rw [hps] at hstep
          simp only [Option.some.injEq] at hstep
          subst hstep
          have hl := pushSurface_lengths _ _ _ _ _ _ _ _ _ hps
          simp only [WRS.countPush, WRS.countPop] at ih ⊢
          omega
      | pop =>
        simp only [WRS.stepOp] at hstep
        rcases hps : WRS.popSurface w.sb w.rg w.cb w.st with _ | p
        · rw [hps] at hstep; simp at hstep
        · rcases p with ⟨sb2, rg2, cb2⟩
          rw [hps] at hstep
          simp only [Option.some.injEq] at hstep
          subst hstep
          have hl := popSurface_lengths _ _ _ _ _ _ _ hps
          simp only [WRS.countPush, WRS.countPop] at ih ⊢
          omega

/-- `finalize` succeeds exactly on an empty scope stack. -/
theorem finalize_isSome (sb : WRS.SurfaceBuilder) :
    (WRS.finalize sb).isSome ↔ sb.builder_stack = [] := by
  rcases h : sb.builder_stack with _ | ⟨a, l⟩ <;> simp [WRS.finalize, h]

/-- Claim C9: after a successfully executed trace of push/pop calls from a
fresh builder, `finalize` succeeds exactly when the trace is balanced (every
push matched by a pop), and success forces both the scope stack and the
dirty-rect stack to be empty. -/
theorem claim_C9_finalize_balanced (ops : List WRS.SurfaceOp)
    (rg : WRS.RenderTaskGraphBuilder) (cb : WRS.CommandBufferList)
    (surfaces : List WRS.SurfaceInfo) (st : WRS.SpatialTree) (w' : WRS.World)
    (h : WRS.runOps (WRS.initWorld rg cb surfaces st) ops = some w') :
    ((WRS.finalize w'.sb).isSome ↔ WRS.countPush ops = WRS.countPop ops) ∧
    ((WRS.finalize w'.sb).isSome →
      w'.sb.builder_stack = [] ∧ w'.sb.dirty_rect_stack = []) := by
  have hl := runOps_lengths ops _ w' h
  have hb : w'.sb.builder_stack.length + WRS.countPop ops = WRS.countPush ops := by
    simpa [WRS.initWorld, WRS.SurfaceBuilder.new] using hl.1
  have hd : w'.sb.dirty_rect_stack.length + WRS.countPop ops = WRS.countPush ops := by
    simpa [WRS.initWorld, WRS.SurfaceBuilder.new] using hl.2
  constructor
  · rw [finalize_isSome]
    constructor
    · intro he
      rw [he] at hb
      simpa using hb.symm
    · intro hc
      rw [hc] at hb
      have : w'.sb.builder_stack.length = 0 := by omega
      exact List.length_eq_zero.mp this
  · intro hf
    have he := (finalize_isSome w'.sb).mp hf
    refine ⟨he, ?_⟩
    rw [he] at hb
    simp only [List.length_nil, Nat.zero_add] at hb
    rw [← hb] at hd
    have : w'.sb.dirty_rect_stack.length = 0 := by omega
    exact List.length_eq_zero.mp this

/-- Witness for C9: the balanced trace push-tiled-root then pop finalizes
successfully. -/
theorem claim_C9_witness : (WRS.finalize w9W1.sb).isSome :=
  (claim_C9_finalize_balanced w9Ops { tasks := [], deps := [] } []
    [{ clipping_rect := w7Rect }] w1St w9W1 rfl).1.mpr rfl

/-- Full characterization of the per-tile sub-graph rewiring loop: it
succeeds on any tile set whose tasks are distinct picture tasks, replaces
the tile map 1:1 with freshly created task ids, appends exactly one resolve
dependency and one sub-graph-output dependency per tile, sets exactly one
resolve op on each original task, and creates one duplicate task per tile at
the original task's location. -/
theorem rewireTiles_spec (resolveId : ℕ) (destOrigin : WRS.QPoint) (childOut : ℕ) :
    ∀ (tiles : List (WRS.TileKey × ℕ)) (rg : WRS.RenderTaskGraphBuilder)
      (cb : WRS.CommandBufferList),
      (∀ p ∈ tiles, ∃ t pt, rg.getTask p.2 = some t ∧ t.kind = .Picture pt) →
      (tiles.map Prod.snd).Nodup →
      ∃ rg' cb',
        WRS.rewireTiles resolveId destOrigin childOut rg cb tiles =
          some (rg', cb', WRS.rewiredKeys rg.tasks.length tiles) ∧
        rg'.tasks.length = rg.tasks.length + tiles.length ∧
        rg'.deps = rg.deps ++ WRS.rewireDeps resolveId childOut rg.tasks.length (tiles.map Prod.snd) ∧
        cb' = cb ++ List.replicate tiles.length [] ∧
        (∀ q, q ∉ tiles.map Prod.snd → q < rg.tasks.length → rg'.getTask q = rg.getTask q) ∧
        (∀ p ∈ tiles, ∃ t pt, rg.getTask p.2 = some t ∧ t.kind = .Picture pt ∧
          rg'.getTask p.2 = some { location := t.location, kind := .Picture { pt with resolve_op := some { src_task_id := p.2, dest_origin := destOrigin, dest_task_id := resolveId } } }) ∧
        (∀ i, ∀ hi : i < tiles.length, ∃ t pt,
          rg.getTask (tiles.get ⟨i, hi⟩).2 = some t ∧ t.kind = .Picture pt ∧
          rg'.getTask (rg.tasks.length + i) = some { location := t.location, kind := .Picture (pt.duplicate (cb.length + i)) })
  | [], rg, cb => by
    intro _ _
    refine ⟨rg, cb, rfl, by simp, by simp [WRS.rewireDeps], by simp, ?_, ?_, ?_⟩
    · intro q _ _; rfl
    · intro p hp; simp at hp
    · intro i hi; simp at hi
  | (k, pid) :: rest, rg, cb => by
    intro hw hnd
    obtain ⟨t, pt, hget, hkind⟩ := hw (k, pid) (by simp)
    have hpid_lt : pid < rg.tasks.length := listNth_lt_length _ _ _ hget
    simp only [List.map_cons, List.nodup_cons] at hnd
    obtain ⟨hpid_notin, hnd_rest⟩ := hnd
    have hsl : (setNth rg.tasks pid
        { location := t.location, kind := WRS.RenderTaskKind.Picture { pt with resolve_op := some { src_task_id := pid, dest_origin := destOrigin, dest_task_id := resolveId } } }).length
        = rg.tasks.length := setNth_length _ _ _
    -- the graph after processing the head tile
    have hstep : WRS.rewireTiles resolveId destOrigin childOut rg cb ((k, pid) :: rest) =
        match WRS.rewireTiles resolveId destOrigin childOut
          { tasks := setNth rg.tasks pid { location := t.location, kind := WRS.RenderTaskKind.Picture { pt with resolve_op := some { src_task_id := pid, dest_origin := destOrigin, dest_task_id := resolveId } } } ++ [{ location := t.location, kind := WRS.RenderTaskKind.Picture (pt.duplicate cb.length) }],
            deps := rg.deps ++ [(resolveId, pid), (rg.tasks.length, childOut)] }
          (cb ++ [[]]) rest with
        | none => none
        | some (rg5, cb5, tiles5) => some (rg5, cb5, (k, rg.tasks.length) :: tiles5) := by
      have hget2 : listNth rg.tasks pid = some t := hget
      simp [WRS.rewireTiles, hget2, hkind, WRS.RenderTaskGraphBuilder.getTask,
        WRS.RenderTaskGraphBuilder.setTask, WRS.RenderTaskGraphBuilder.addDependency,
        WRS.RenderTaskGraphBuilder.addTask, WRS.createCmdBuffer, WRS.PictureTask.duplicate,
        hsl]
    set upd : WRS.RenderTask := { location := t.location, kind := WRS.RenderTaskKind.Picture { pt with resolve_op := some { src_task_id := pid, dest_origin := destOrigin, dest_task_id := resolveId } } } with hupd
    set newTask : WRS.RenderTask := { location := t.location, kind := WRS.RenderTaskKind.Picture (pt.duplicate cb.length) } with hnewTask
    set rg4 : WRS.RenderTaskGraphBuilder := { tasks := setNth rg.tasks pid upd ++ [newTask], deps := rg.deps ++ [(resolveId, pid), (rg.tasks.length, childOut)] } with hrg4
    have hrg4_tasks_len : rg4.tasks.length = rg.tasks.length + 1 := by
      simp [hrg4, hsl]
    have hrg4_get_ne : ∀ q, q ≠ pid → q < rg.tasks.length → rg4.getTask q = rg.getTask q := by
      intro q hne hlt
      show listNth (setNth rg.tasks pid upd ++ [newTask]) q = listNth rg.tasks q
      rw [listNth_append_left _ _ _ (by rw [hsl]; exact hlt), listNth_setNth_ne _ _ _ _ hne]
    have hrg4_get_pid : rg4.getTask pid = some upd := by
      show listNth (setNth rg.tasks pid upd ++ [newTask]) pid = some upd
      rw [listNth_append_left _ _ _ (by rw [hsl]; exact hpid_lt)]
      exact listNth_setNth_self _ _ _ hpid_lt
    have hrg4_get_new : rg4.getTask rg.tasks.length = some newTask := by
      show listNth (setNth rg.tasks pid upd ++ [newTask]) rg.tasks.length = some newTask
      conv_lhs => rw [← hsl]
      exact listNth_append_self _ _
    have hrestlt : ∀ p ∈ rest, p.2 < rg.tasks.length := by
      intro p hp
      obtain ⟨t2, pt2, hg2, -⟩ := hw p (by simp [hp])
      exact listNth_lt_length _ _ _ hg2
    have hw4 : ∀ p ∈ rest, ∃ t2 pt2, rg4.getTask p.2 = some t2 ∧ t2.kind = .Picture pt2 := by
      intro p hp
      obtain ⟨t2, pt2, hg2, hk2⟩ := hw p (by simp [hp])
      have hne : p.2 ≠ pid := by
        intro hc
        exact hpid_notin (hc ▸ List.mem_map_of_mem Prod.snd hp)
      exact ⟨t2, pt2, by rw [hrg4_get_ne p.2 hne (hrestlt p hp)]; exact hg2, hk2⟩
    obtain ⟨rg5, cb5, hrw, hlen5, hdeps5, hcb5, hframe5, hmem5, hnew5⟩ :=
      rewireTiles_spec resolveId destOrigin childOut rest rg4 (cb ++ [[]]) hw4 hnd_rest
    have hbase_notin : rg.tasks.length ∉ rest.map Prod.snd := by
      intro hc
      obtain ⟨p, hp, hq⟩ := List.mem_map.mp hc
      have := hrestlt p hp
      omega
    refine ⟨rg5, cb5, ?_, ?_, ?_, ?_, ?_, ?_, ?_⟩
    · rw [hstep, hrw]
      simp [WRS.rewiredKeys, hrg4_tasks_len]
    · rw [hlen5, hrg4_tasks_len]
      simp [List.length_cons]
      omega
    · rw [hdeps5, hrg4_tasks_len]
      simp [hrg4, WRS.rewireDeps, List.append_assoc]
    · rw [hcb5]
      simp [List.replicate_succ, List.append_assoc]
    · intro q hqnot hqlt
      simp only [List.map_cons, List.mem_cons] at hqnot
      push_neg at hqnot
      rw [hframe5 q hqnot.2 (by omega)]
      exact hrg4_get_ne q hqnot.1 hqlt
    · intro p hp
      rcases List.mem_cons.mp hp with rfl | hp2
      · refine ⟨t, pt, hget, hkind, ?_⟩
        rw [hframe5 pid hpid_notin (by omega)]
        exact hrg4_get_pid
      · obtain ⟨t2, pt2, hg4, hk2, hg5⟩ := hmem5 p hp2
        have hne : p.2 ≠ pid := fun hc => hpid_notin (hc ▸ List.mem_map_of_mem Prod.snd hp2)
        have hg0 : rg.getTask p.2 = some t2 := by
          rw [← hrg4_get_ne p.2 hne (hrestlt p hp2)]
          exact hg4
        exact ⟨t2, pt2, hg0, hk2, hg5⟩
    · intro i hi
      cases i with
      | zero =>
        refine ⟨t, pt, hget, hkind, ?_⟩
        rw [Nat.add_zero, hframe5 rg.tasks.length hbase_notin (by omega)]
        simpa using hrg4_get_new
      | succ j =>
        have hj : j < rest.length := by
          simpa [Nat.succ_lt_succ_iff] using hi
        obtain ⟨t2, pt2, hg4, hk2, hg5⟩ := hnew5 j hj
        have hmem : rest.get ⟨j, hj⟩ ∈ rest := List.get_mem rest j hj
        have hne : (rest.get ⟨j, hj⟩).2 ≠ pid := fun hc =>
          hpid_notin (hc ▸ List.mem_map_of_mem Prod.snd hmem)
        have hg0 : rg.getTask (rest.get ⟨j, hj⟩).2 = some t2 := by
          rw [← hrg4_get_ne _ hne (hrestlt _ hmem)]
          exact hg4
        refine ⟨t2, pt2, hg0, hk2, ?_⟩
        have hidx : rg.tasks.length + (j + 1) = rg4.tasks.length + j := by
          rw [hrg4_tasks_len]
          omega
        have hcbl : cb.length + (j + 1) = (cb ++ [[]]).length + j := by
          simp
          omega
        rw [hidx, hcbl]
        exact hg5

/-- The rewired tile map has the same cardinality as the original. -/
theorem rewiredKeys_length :
    ∀ (tiles : List (WRS.TileKey × ℕ)) (base : ℕ),
      (WRS.rewiredKeys base tiles).length = tiles.length
  | [], _ => rfl
  | (k, pid) :: rest, base => by
    simp [WRS.rewiredKeys, rewiredKeys_length rest (base + 1)]

/-- Every entry of the rewired tile map is an original key paired with the
fresh task id at its position. -/
theorem mem_rewiredKeys :
    ∀ (tiles : List (WRS.TileKey × ℕ)) (base : ℕ) (p : WRS.TileKey × ℕ),
      p ∈ WRS.rewiredKeys base tiles →
      ∃ i, ∃ hi : i < tiles.length, p = ((tiles.get ⟨i, hi⟩).1, base + i)
  | [], base, p => by simp [WRS.rewiredKeys]
  | (k, pid) :: rest, base, p => by
    intro hp
    simp only [WRS.rewiredKeys, List.mem_cons] at hp
    rcases hp with rfl | hp2
    · exact ⟨0, by simp, by simp⟩
    · obtain ⟨i, hi, hpi⟩ := mem_rewiredKeys rest (base + 1) p hp2
      refine ⟨i + 1, by simpa [Nat.succ_lt_succ_iff] using hi, ?_⟩
      rw [show base + (i + 1) = base + 1 + i by omega]
      exact hpi

/-- The tile-target resolution succeeds when every tile task is a picture
task. -/
theorem tileTargets_isSome (rg : WRS.RenderTaskGraphBuilder) :
    ∀ l : List (WRS.TileKey × ℕ),
      (∀ p ∈ l, ∃ t pt, rg.getTask p.2 = some t ∧ t.kind = .Picture pt) →
      ∃ r, WRS.tileTargets rg l = some r
  | [], _ => ⟨[], rfl⟩
  | (k, tid) :: l, h => by
    obtain ⟨t, pt, hg, hk⟩ := h (k, tid) (by simp)
    obtain ⟨r, hr⟩ := tileTargets_isSome rg l (fun p hp => h p (by simp [hp]))
    exact ⟨(k, pt.cmd_buffer_index) :: r, by simp [WRS.tileTargets, hg, hk, hr]⟩

/-- Claim C1: popping a sub-graph scope (simple or chained descriptor, resolve
source registered) rewires the graph identically for tiled and simple parent
scopes: each original parent task receives exactly one resolve instruction
(source = that task, the mapped destination origin, destination = the resolve
target), exactly one dependency edge is added from the resolve target onto
each original parent task, one new task per parent target is inserted at the
same draw location depending on the popped sub-graph's output (its chain root
when chained, else its direct task), and the parent scope's active task set is
replaced 1:1 with the same cardinality. -/
theorem claim_C1_pop_subgraph_rewire (sb : WRS.SurfaceBuilder)
    (rg : WRS.RenderTaskGraphBuilder) (cb : WRS.CommandBufferList) (st : WRS.SpatialTree)
    (builder parent : WRS.CommandBufferBuilder) (rest2 : List WRS.CommandBufferBuilder)
    (d0 : List WRS.PictureRect) (dr : List (List WRS.PictureRect))
    (childId : ℕ) (childRoot : Option ℕ) (resolveId : ℕ)
    (destTask : WRS.RenderTask) (destInfo : WRS.PictureTask) (destOrigin : WRS.QPoint)
    (hst : sb.builder_stack = builder :: parent :: rest2)
    (hdr : sb.dirty_rect_stack = d0 :: dr)
    (hsub : builder.establishes_sub_graph = true)
    (hkind : builder.kind = .Simple childId childRoot)
    (hres : builder.resolve_source = some resolveId)
    (hdest : rg.getTask resolveId = some destTask)
    (hdk : destTask.kind = .Picture destInfo)
    (hmap : st.mapPoint destInfo.surface_spatial_node_index
      destInfo.raster_spatial_node_index destInfo.content_origin = some destOrigin) :
    (∀ tiles, parent.kind = .Tiled tiles →
      (∀ p ∈ tiles, ∃ t pt, rg.getTask p.2 = some t ∧ t.kind = .Picture pt) →
      (tiles.map Prod.snd).Nodup →
      ∃ sb' rg' cb',
        WRS.popSurface sb rg cb st = some (sb', rg', cb') ∧
        sb'.builder_stack =
          { parent with kind := .Tiled (WRS.rewiredKeys rg.tasks.length tiles) } :: rest2 ∧
        (WRS.rewiredKeys rg.tasks.length tiles).length = tiles.length ∧
        rg'.deps = rg.deps ++ WRS.rewireDeps resolveId (childRoot.getD childId) rg.tasks.length (tiles.map Prod.snd) ∧
        (∀ p ∈ tiles, ∃ t pt, rg.getTask p.2 = some t ∧ t.kind = .Picture pt ∧
          rg'.getTask p.2 = some { location := t.location, kind := .Picture { pt with resolve_op := some { src_task_id := p.2, dest_origin := destOrigin, dest_task_id := resolveId } } }) ∧
        (∀ i, ∀ hi : i < tiles.length, ∃ t pt,
          rg.getTask (tiles.get ⟨i, hi⟩).2 = some t ∧ t.kind = .Picture pt ∧
          rg'.getTask (rg.tasks.length + i) = some { location := t.location, kind := .Picture (pt.duplicate (cb.length + i)) })) ∧
    (∀ parentId parentRoot t pt, parent.kind = .Simple parentId parentRoot →
      rg.getTask parentId = some t → t.kind = .Picture pt →
      ∃ sb' rg' cb',
        WRS.popSurface sb rg cb st = some (sb', rg', cb') ∧
        sb'.builder_stack =
          { parent with kind := .Simple rg.tasks.length parentRoot } :: rest2 ∧
        rg'.deps = rg.deps ++ [(resolveId, parentId), (rg.tasks.length, childRoot.getD childId)] ∧
        rg'.getTask parentId = some { location := t.location, kind := .Picture { pt with resolve_op := some { src_task_id := parentId, dest_origin := destOrigin, dest_task_id := resolveId } } } ∧
        rg'.getTask rg.tasks.length = some { location := WRS.RenderTaskLocation.Existing parentId t.location.size, kind := .Picture (pt.duplicate cb.length) }) := by
  constructor
  · intro tiles hpk hwtasks hnodup
    obtain ⟨rg', cb', hrw, hlen, hdeps, hcb, hframe, hmem, hnew⟩ :=
      rewireTiles_spec resolveId destOrigin (childRoot.getD childId) tiles rg cb hwtasks hnodup
    have hall : ∀ p ∈ WRS.rewiredKeys rg.tasks.length tiles,
        ∃ t pt, rg'.getTask p.2 = some t ∧ t.kind = .Picture pt := by
      intro p hp
      obtain ⟨i, hi, rfl⟩ := mem_rewiredKeys tiles rg.tasks.length p hp
      obtain ⟨t, pt, hg, hk, hg2⟩ := hnew i hi
      exact ⟨_, _, hg2, rfl⟩
    obtain ⟨r, hr⟩ := tileTargets_isSome rg' (WRS.rewiredKeys rg.tasks.length tiles) hall
    refine ⟨{ current_cmd_buffers := .Tiled r,
              builder_stack := { parent with kind := .Tiled (WRS.rewiredKeys rg.tasks.length tiles) } :: rest2,
              dirty_rect_stack := dr }, rg', cb', ?_, rfl,
            rewiredKeys_length tiles rg.tasks.length, hdeps, hmem, hnew⟩
    simp [WRS.popSurface, hdr, hst, WRS.popCore, hsub, hkind, hres, hdest, hdk, hmap,
      hpk, hrw, WRS.targetsInit, hr]
  · intro parentId parentRoot t pt hpk hpt hptk
    have hpid_lt : parentId < rg.tasks.length := listNth_lt_length _ _ _ hpt
    have hsl : (setNth rg.tasks parentId
        { location := t.location, kind := WRS.RenderTaskKind.Picture { pt with resolve_op := some { src_task_id := parentId, dest_origin := destOrigin, dest_task_id := resolveId } } }).length
        = rg.tasks.length := setNth_length _ _ _
    have hgetNew : listNth (setNth rg.tasks parentId
        { location := t.location, kind := WRS.RenderTaskKind.Picture { pt with resolve_op := some { src_task_id := parentId, dest_origin := destOrigin, dest_task_id := resolveId } } }
        ++ [{ location := WRS.RenderTaskLocation.Existing parentId t.location.size, kind := WRS.RenderTaskKind.Picture (pt.duplicate cb.length) }]) rg.tasks.length
        = some { location := WRS.RenderTaskLocation.Existing parentId t.location.size, kind := WRS.RenderTaskKind.Picture (pt.duplicate cb.length) } := by
      conv_lhs => rw [← hsl]
      exact listNth_append_self _ _
    have hgetUpd : listNth (setNth rg.tasks parentId
        { location := t.location, kind := WRS.RenderTaskKind.Picture { pt with resolve_op := some { src_task_id := parentId, dest_origin := destOrigin, dest_task_id := resolveId } } }
        ++ [{ location := WRS.RenderTaskLocation.Existing parentId t.location.size, kind := WRS.RenderTaskKind.Picture (pt.duplicate cb.length) }]) parentId
        = some { location := t.location, kind := WRS.RenderTaskKind.Picture { pt with resolve_op := some { src_task_id := parentId, dest_origin := destOrigin, dest_task_id := resolveId } } } := by
      rw [listNth_append_left _ _ _ (by rw [hsl]; exact hpid_lt)]
      exact listNth_setNth_self _ _ _ hpid_lt
    have hpt2 : listNth rg.tasks parentId = some t := hpt
    refine ⟨{ current_cmd_buffers := .Simple (pt.duplicate cb.length).cmd_buffer_index,
              builder_stack := { parent with kind := .Simple rg.tasks.length parentRoot } :: rest2,
              dirty_rect_stack := dr },
            { tasks := setNth rg.tasks parentId { location := t.location, kind := WRS.RenderTaskKind.Picture { pt with resolve_op := some { src_task_id := parentId, dest_origin := destOrigin, dest_task_id := resolveId } } } ++ [{ location := WRS.RenderTaskLocation.Existing parentId t.location.size, kind := WRS.RenderTaskKind.Picture (pt.duplicate cb.length) }],
              deps := rg.deps ++ [(resolveId, parentId), (rg.tasks.length, childRoot.getD childId)] },
            cb ++ [[]], ?_, rfl, rfl, hgetUpd, hgetNew⟩
    have hdest2 : listNth rg.tasks resolveId = some destTask := hdest
    simp [WRS.popSurface, hdr, hst, WRS.popCore, hsub, hkind, hres, hdest2, hdk, hmap,
      hpk, hpt2, hptk, WRS.targetsInit, WRS.RenderTaskGraphBuilder.getTask,
      WRS.RenderTaskGraphBuilder.setTask, WRS.RenderTaskGraphBuilder.addDependency,
      WRS.RenderTaskGraphBuilder.addTask, WRS.createCmdBuffer,
      hsl, hgetNew]

/-- Witness for C1: popping the sample sub-graph scope over a simple parent
succeeds (and the rewiring conclusions apply at this input). -/
theorem claim_C1_witness : (WRS.popSurface w1Sb w1Rg [] w1St).isSome := by
  obtain ⟨sb', rg', cb', hpop, -⟩ :=
    (claim_C1_pop_subgraph_rewire w1Sb w1Rg [] w1St w1Popped w1Parent [] [] [[]]
      2 none 0 w1DestTask w1DestInfo { x := 2, y := 5 }
      rfl rfl rfl rfl rfl rfl rfl rfl).2 1 none w1ParentTask w1ParentInfo rfl rfl rfl
  simp [hpop]

unseal Rat.mul Rat.add Rat.sub Rat.inv in
/-- Counterexample for C3 as stated: for a cached-blur picture whose key is
already in the render-task cache, `prepare_for_render` creates no render
task at all (the task list stays empty), appends nothing to the parent's
running task list, and `self.surface` becomes a texture-cache handle rather
than the newly created output render-task id. -/
theorem claim_C3_counterexample :
    (WRP.prepareForRender c3Pic 0 c3Meta c3Ctx c3ChildState c3FrameCtx c3FrameState).map
      (fun o => (o.1.surface, o.2.1.tasks, o.2.2.render_tasks.length))
      = some (some (.TextureCache 0), [], 0) := by decide

/-- Claim C3 (amended), branch by branch: for every non-directly-drawable
picture, the uncached blur branch creates a picture task and a blur task and
makes the blur task id the surface and the sole id appended to the parent's
list; the cached blur branch yields a texture-cache handle — on a cache hit
the existing handle with no task created and nothing appended, on a miss the
fresh handle with the new blur task id appended and the key recorded;
DropShadow appends its new blur task id (the pre-blur picture task becoming
the secondary task); MixBlend appends its new readback task id then its new
picture task id (the readback becoming the secondary task); every other
filter and Blit/forced-None appends its single new picture task id; in each
non-cached branch that id becomes `self.surface` as a RenderTask. -/
theorem claim_C3_prepare_surface_and_tasks (pic : WRP.PicturePrimitive) (prim_index : ℕ)
    (pm : WRP.PrimitiveMetadata) (pc : WRP.PrimitiveContext) (ps : WRP.PictureState)
    (fc : WRP.FrameBuildingContext) (fs : WRP.FrameBuildingState)
    (pic' : WRP.PicturePrimitive) (ps' : WRP.PictureState) (fs' : WRP.FrameBuildingState)
    (h : WRP.prepareForRender pic prim_index pm pc ps fc fs = some (pic', ps', fs'))
    (hnd : WRP.canDrawDirectlyToParentSurface pic = false) :
    (∀ r, pic.composite_mode = some (.Filter (.Blur r)) →
      ∀ children, pic.state = some children →
        (children.has_non_root_coord_system = true →
          pic'.surface = some (.RenderTask (fs.render_tasks.length + 1)) ∧
          ps'.tasks = ps.tasks ++ [fs.render_tasks.length + 1] ∧
          fs'.render_tasks.length = fs.render_tasks.length + 2) ∧
        (children.has_non_root_coord_system = false →
          ∀ cwr, pm.clipped_world_rect = some cwr →
          ∀ pr, ps.map_local_to_pic pm.local_rect = some pr →
          ∀ wr, ps.map_pic_to_world pr = some wr →
          ∀ device_rect, ((WRP.worldRectToDevicePixels cwr fc.device_pixel_scale).toI32.inflate ⌈r * fc.device_pixel_scale * WRP.BLUR_SAMPLE_SCALE⌉).intersection (WRP.worldRectToDevicePixels wr fc.device_pixel_scale).toI32 = some device_rect →
            (∀ hdl, fs.cached_keys.findIdx? (fun k2 => decide (k2 = WRP.mkBlurCacheKey fc.scene_id pic.id device_rect (WRP.worldRectToDevicePixels wr fc.device_pixel_scale))) = some hdl →
              pic'.surface = some (.TextureCache hdl) ∧ ps' = ps ∧ fs' = fs) ∧
            (fs.cached_keys.findIdx? (fun k2 => decide (k2 = WRP.mkBlurCacheKey fc.scene_id pic.id device_rect (WRP.worldRectToDevicePixels wr fc.device_pixel_scale))) = none →
              pic'.surface = some (.TextureCache fs.cached_keys.length) ∧
              ps'.tasks = ps.tasks ++ [fs.render_tasks.length + 1] ∧
              fs'.render_tasks.length = fs.render_tasks.length + 2 ∧
              fs'.cached_keys = fs.cached_keys ++ [WRP.mkBlurCacheKey fc.scene_id pic.id device_rect (WRP.worldRectToDevicePixels wr fc.device_pixel_scale)]))) ∧
    (∀ off r col, pic.composite_mode = some (.Filter (.DropShadow off r col)) →
      pic'.surface = some (.RenderTask (fs.render_tasks.length + 1)) ∧
      ps'.tasks = ps.tasks ++ [fs.render_tasks.length + 1] ∧
      pic'.secondary_render_task_id = some fs.render_tasks.length ∧
      fs'.render_tasks.length = fs.render_tasks.length + 2) ∧
    (∀ m, pic.composite_mode = some (.MixBlend m) →
      pic'.surface = some (.RenderTask (fs.render_tasks.length + 1)) ∧
      ps'.tasks = ps.tasks ++ [fs.render_tasks.length, fs.render_tasks.length + 1] ∧
      pic'.secondary_render_task_id = some fs.render_tasks.length ∧
      fs'.render_tasks.length = fs.render_tasks.length + 2) ∧
    (∀ f, pic.composite_mode = some (.Filter f) →
      (∀ r, f ≠ .Blur r) → (∀ off r col, f ≠ .DropShadow off r col) →
      pic'.surface = some (.RenderTask fs.render_tasks.length) ∧
      ps'.tasks = ps.tasks ++ [fs.render_tasks.length] ∧
      fs'.render_tasks.length = fs.render_tasks.length + 1) ∧
    ((pic.composite_mode = some .Blit ∨ pic.composite_mode = none) →
      pic'.surface = some (.RenderTask fs.render_tasks.length) ∧
      ps'.tasks = ps.tasks ++ [fs.render_tasks.length] ∧
      fs'.render_tasks.length = fs.render_tasks.length + 1) := by
  have hnd2 : WRP.canDrawDirectlyToParentSurface { pic with state := none } = false := hnd
  simp only [WRP.prepareForRender] at h
  split at h
  · exact absurd h (by simp)
  · rw [if_neg (show ¬(WRP.canDrawDirectlyToParentSurface { pic with state := none } = true)
      by simp [hnd2])] at h
    repeat' split at h
    all_goals (try exact Option.noConfusion h)
    all_goals (
      simp only [Option.some.injEq, Prod.mk.injEq] at h
      obtain ⟨h1, h2, h3⟩ := h
      subst h1
      subst h2
      subst h3)
    all_goals (
      refine ⟨?_, ?_, ?_, ?_, ?_⟩ <;>
        (intros
         try simp_all [-List.findIdx?_eq_none_iff]
         all_goals (exfalso; solve_by_elim [Eq.symm])))

unseal Rat.mul Rat.add Rat.sub Rat.inv in
/-- Witness for C3 (amended) at a concrete Blit picture: the new picture
task id 0 becomes the surface and is the sole id appended to the (empty)
parent task list, with exactly one task created. -/
theorem claim_C3_witness :
    c3BlitRes.1.surface = some (WRP.PictureSurface.RenderTask 0) ∧
    c3BlitRes.2.1.tasks = [0] ∧
    c3BlitRes.2.2.render_tasks.length = 1 := by
  have h : WRP.prepareForRender c3BlitPic 0 c3Meta c3Ctx c3ChildState c3FrameCtx c3FrameState
      = some (c3BlitRes.1, c3BlitRes.2.1, c3BlitRes.2.2) := rfl
  have hc := (claim_C3_prepare_surface_and_tasks c3BlitPic 0 c3Meta c3Ctx c3ChildState c3FrameCtx
    c3FrameState c3BlitRes.1 c3BlitRes.2.1 c3BlitRes.2.2 h rfl).2.2.2.2 (Or.inl rfl)
  simpa [c3FrameState, c3ChildState] using hc
